import Mathlib

set_option linter.unreachableTactic false
set_option linter.unusedTactic false

/-!
Verification development for the Agent2Sandbox local LLM proxy
(`agent2sandbox/llm_proxy.py` and `agent2sandbox/settings.py`).

The Python code operates on JSON-like dynamic values (`dict` / `list` /
`str` / `int` / `bool` / `None`).  We embed those values as the inductive
type `Json` below; Python dicts become insertion-ordered association
lists, which matches CPython's dict semantics (`d[k] = v` keeps the key's
position when `k` is already present, appends otherwise; iteration is in
insertion order).

Sources of nondeterminism and environment interaction are made explicit
parameters:
* `uuid4().hex` draws are modelled by a supply `g : Nat → String`
  together with a counter threaded in Python evaluation order;
* wall-clock strings (`datetime.now(...)`) and `time.time()` are
  parameters of each request-processing function;
* the network is modelled by a `NetOutcome` parameter describing what the
  single upstream POST of a request path returns.
-/

/-- Python whitespace for `str.strip()`. -/
def isPySpace (c : Char) : Bool :=
  c = ' ' || c = '\t' || c = '\n' || c = '\r' || c = '\x0b' || c = '\x0c'

/-- Python `str.strip()` (whitespace).  (Core `String.trim` is
position-based and does not reduce in the kernel, hence this list-based
equivalent.) -/
def String.pyStrip (s : String) : String :=
  String.mk (((s.data.dropWhile isPySpace).reverse.dropWhile isPySpace).reverse)

/-- Python `str.lower()` (list-based for kernel reduction; agrees with
`str.lower` on ASCII, the only case the code exercises). -/
def String.pyLower (s : String) : String :=
  String.mk (s.data.map Char.toLower)

def isDigitCh (c : Char) : Bool :=
  '0' ≤ c && c ≤ '9'

def digitsVal (acc : Nat) : List Char → Nat
  | [] => acc
  | c :: rest => digitsVal (acc * 10 + (c.toNat - '0'.toNat)) rest

/-- Python `int(str)`: optional sign and decimal digits after stripping
whitespace; `none` models the `ValueError` cases (never reached by a
verified claim). -/
def String.pyToInt (s : String) : Option Int :=
  let cs := ((s.data.dropWhile isPySpace).reverse.dropWhile isPySpace).reverse
  match cs with
  | '-' :: ds =>
      if ds ≠ [] ∧ ds.all isDigitCh then some (-(digitsVal 0 ds : Int)) else none
  | '+' :: ds =>
      if ds ≠ [] ∧ ds.all isDigitCh then some ((digitsVal 0 ds : Int)) else none
  | ds =>
      if ds ≠ [] ∧ ds.all isDigitCh then some ((digitsVal 0 ds : Int)) else none

namespace A2S

/-- JSON-like dynamic value, the data universe of the proxy code.
Numbers are modelled as integers (no verified claim involves floats). -/
inductive Json where
  | null
  | bool (b : Bool)
  | num (n : Int)
  | str (s : String)
  | arr (items : List Json)
  | obj (fields : List (String × Json))
deriving Repr

mutual

def Json.beq : Json → Json → Bool
  | .null, .null => true
  | .bool a, .bool b => a == b
  | .num a, .num b => a == b
  | .str a, .str b => a == b
  | .arr a, .arr b => Json.beqList a b
  | .obj a, .obj b => Json.beqObj a b
  | _, _ => false

def Json.beqList : List Json → List Json → Bool
  | [], [] => true
  | x :: xs, y :: ys => Json.beq x y && Json.beqList xs ys
  | _, _ => false

def Json.beqObj : List (String × Json) → List (String × Json) → Bool
  | [], [] => true
  | (k, v) :: xs, (k2, v2) :: ys => k == k2 && Json.beq v v2 && Json.beqObj xs ys
  | _, _ => false

end

mutual

theorem Json.beq_iff : ∀ (a b : Json), Json.beq a b = true ↔ a = b
  | .null, .null => by simp [Json.beq]
  | .null, .bool _ | .null, .num _ | .null, .str _ | .null, .arr _ | .null, .obj _ => by
      simp [Json.beq]
  | .bool _, .null | .bool _, .num _ | .bool _, .str _ | .bool _, .arr _ | .bool _, .obj _ => by
      simp [Json.beq]
  | .num _, .null | .num _, .bool _ | .num _, .str _ | .num _, .arr _ | .num _, .obj _ => by
      simp [Json.beq]
  | .str _, .null | .str _, .bool _ | .str _, .num _ | .str _, .arr _ | .str _, .obj _ => by
      simp [Json.beq]
  | .arr _, .null | .arr _, .bool _ | .arr _, .num _ | .arr _, .str _ | .arr _, .obj _ => by
      simp [Json.beq]
  | .obj _, .null | .obj _, .bool _ | .obj _, .num _ | .obj _, .str _ | .obj _, .arr _ => by
      simp [Json.beq]
  | .bool a, .bool b => by simp [Json.beq]
  | .num a, .num b => by simp [Json.beq]
  | .str a, .str b => by simp [Json.beq]
  | .arr a, .arr b => by simp [Json.beq, Json.beqList_iff a b]
  | .obj a, .obj b => by simp [Json.beq, Json.beqObj_iff a b]

theorem Json.beqList_iff : ∀ (xs ys : List Json), Json.beqList xs ys = true ↔ xs = ys
  | [], [] => by simp [Json.beqList]
  | [], _ :: _ => by simp [Json.beqList]
  | _ :: _, [] => by simp [Json.beqList]
  | x :: xs, y :: ys => by
      simp [Json.beqList, Json.beq_iff x y, Json.beqList_iff xs ys]

theorem Json.beqObj_iff :
    ∀ (xs ys : List (String × Json)), Json.beqObj xs ys = true ↔ xs = ys
  | [], [] => by simp [Json.beqObj]
  | [], _ :: _ => by simp [Json.beqObj]
  | _ :: _, [] => by simp [Json.beqObj]
  | (k, v) :: xs, (k2, v2) :: ys => by
      simp [Json.beqObj, Json.beq_iff v v2, Json.beqObj_iff xs ys, and_assoc]

end

instance : DecidableEq Json := fun a b => decidable_of_iff _ (Json.beq_iff a b)

/-- First-match association-list lookup, the value of Python `dict.get`. -/
def jsonLookup (fields : List (String × Json)) (k : String) : Option Json :=
  match fields with
  | [] => none
  | (k2, v) :: rest => if k2 = k then some v else jsonLookup rest k

/-- Python `d.get(k)` (call sites always guard with `isinstance(d, dict)`;
on a non-dict value we return `none`). -/
def Json.getField : Json → String → Option Json
  | .obj fs, k => jsonLookup fs k
  | _, _ => none

/-- Python `d.get(k, default)`. -/
def Json.getD (j : Json) (k : String) (default : Json) : Json :=
  (j.getField k).getD default

/-- Python `k in d`. -/
def Json.hasField (j : Json) (k : String) : Bool :=
  (j.getField k).isSome

/-- Replace the value at key `k` in place (first occurrence), keeping the
key's position, as CPython dicts do; append when absent. -/
def setPairs (fields : List (String × Json)) (k : String) (v : Json) :
    List (String × Json) :=
  match fields with
  | [] => [(k, v)]
  | (k2, v2) :: rest =>
      if k2 = k then (k2, v) :: rest else (k2, v2) :: setPairs rest k v

/-- Python `d[k] = v` on a dict value; identity on non-dicts (never reached
at the embedded call sites). -/
def Json.setField : Json → String → Json → Json
  | .obj fs, k, v => .obj (setPairs fs k v)
  | j, _, _ => j

def Json.isObj : Json → Bool
  | .obj _ => true
  | _ => false

def Json.isArr : Json → Bool
  | .arr _ => true
  | _ => false

/-- Python `isinstance(x, (dict, list))`. -/
def Json.isContainer : Json → Bool
  | .obj _ => true
  | .arr _ => true
  | _ => false

def Json.isStr : Json → Bool
  | .str _ => true
  | _ => false

/-- Escape one character for a JSON string literal, like Python's
`json.dumps` (`ensure_ascii=False`): quote, backslash and the common
control characters get two-character escapes, everything else is kept
literally.  (`\uXXXX` escapes for exotic control characters are not
modelled; no string a verified claim touches contains them.) -/
def escChar (c : Char) : String :=
  if c = '"' then "\\\""
  else if c = '\\' then "\\\\"
  else if c = '\n' then "\\n"
  else if c = '\t' then "\\t"
  else if c = '\r' then "\\r"
  else String.singleton c

def escString (s : String) : String :=
  String.join (s.data.map escChar)

mutual

/-- Python `json.dumps` with its default separators (`", "` and `": "`).
The proxy calls `json.dumps` both with `ensure_ascii=False` (translator
output) and `ensure_ascii=True` (trajectory files, SSE data lines); the
two only differ on non-ASCII characters, which we model identically. -/
def Json.dumps : Json → String
  | .null => "null"
  | .bool true => "true"
  | .bool false => "false"
  | .num n => toString n
  | .str s => "\"" ++ escString s ++ "\""
  | .arr items => "[" ++ Json.dumpsArr items ++ "]"
  | .obj fields => "\x7b" ++ Json.dumpsObj fields ++ "\x7d"

def Json.dumpsArr : List Json → String
  | [] => ""
  | [x] => Json.dumps x
  | x :: y :: rest => Json.dumps x ++ ", " ++ Json.dumpsArr (y :: rest)

def Json.dumpsObj : List (String × Json) → String
  | [] => ""
  | [(k, v)] => "\"" ++ escString k ++ "\": " ++ Json.dumps v
  | (k, v) :: y :: rest =>
      "\"" ++ escString k ++ "\": " ++ Json.dumps v ++ ", " ++ Json.dumpsObj (y :: rest)

end

/-- Python truthiness of a JSON-like value. -/
def pyTruthy : Json → Bool
  | .null => false
  | .bool b => b
  | .num n => n != 0
  | .str s => s ≠ ""
  | .arr xs => !xs.isEmpty
  | .obj fs => !fs.isEmpty

/-- Python `str(x)` as used at the embedded call sites.  Those sites apply
it to values that are strings in every execution a verified claim
examines; the non-string cases are modelled best-effort (`None`,
`True`/`False`, decimal integers; containers fall back to their JSON
serialization, which differs from CPython's `repr`-based rendering but is
never exercised by a verified claim). -/
def pyStr : Json → String
  | .str s => s
  | .null => "None"
  | .bool true => "True"
  | .bool false => "False"
  | .num n => toString n
  | .arr xs => Json.dumps (.arr xs)
  | .obj fs => Json.dumps (.obj fs)

/-- Python `int(x)` as used at the embedded call sites (always applied to
numeric usage counters / max_tokens values in the executions a verified
claim examines). -/
def pyInt : Json → Int
  | .num n => n
  | .bool true => 1
  | .bool false => 0
  | .str s => (s.pyToInt).getD 0
  | _ => 0

/-- Python `needle in hay` on strings (substring test). -/
def strContains (hay needle : String) : Bool :=
  hay.data.tails.any fun t => needle.data.isPrefixOf t

/-- Python `s[:n]`. -/
def strTake (s : String) (n : Nat) : String :=
  String.mk (s.data.take n)

def isJsonWs (c : Char) : Bool :=
  c = ' ' || c = '\n' || c = '\t' || c = '\r'

def skipWs (cs : List Char) : List Char :=
  match cs with
  | [] => []
  | c :: rest => if isJsonWs c then skipWs rest else c :: rest

def isDigitChar (c : Char) : Bool :=
  '0' ≤ c && c ≤ '9'

def digitsToNat (acc : Nat) : List Char → Nat × List Char
  | [] => (acc, [])
  | c :: rest =>
      if isDigitChar c then digitsToNat (acc * 10 + (c.toNat - '0'.toNat)) rest
      else (acc, c :: rest)

/-- Parse the body of a JSON string literal (after the opening quote),
undoing the escapes `escChar` produces. -/
def parseStrBody (fuel : Nat) (acc : List Char) (cs : List Char) :
    Option (String × List Char) :=
  match fuel, cs with
  | 0, _ => none
  | _, [] => none
  | fuel + 1, c :: rest =>
      if c = '"' then some (String.mk acc.reverse, rest)
      else if c = '\\' then
        match rest with
        | [] => none
        | e :: rest2 =>
            let dec : Option Char :=
              if e = '"' then some '"'
              else if e = '\\' then some '\\'
              else if e = '/' then some '/'
              else if e = 'n' then some '\n'
              else if e = 't' then some '\t'
              else if e = 'r' then some '\r'
              else none
            match dec with
            | some d => parseStrBody fuel (d :: acc) rest2
            | none => none
      else parseStrBody fuel (c :: acc) rest

mutual

/-- Fuel-indexed recursive-descent JSON parser; the model of
`json.loads`.  Numbers are integers only (see `Json`). -/
def parseValue (fuel : Nat) (cs : List Char) : Option (Json × List Char) :=
  match fuel with
  | 0 => none
  | fuel + 1 =>
      match skipWs cs with
      | 'n' :: 'u' :: 'l' :: 'l' :: rest => some (.null, rest)
      | 't' :: 'r' :: 'u' :: 'e' :: rest => some (.bool true, rest)
      | 'f' :: 'a' :: 'l' :: 's' :: 'e' :: rest => some (.bool false, rest)
      | '"' :: rest =>
          match parseStrBody fuel [] rest with
          | some (s, rest2) => some (.str s, rest2)
          | none => none
      | '[' :: rest =>
          (match skipWs rest with
           | ']' :: rest2 => some (.arr [], rest2)
           | _ =>
               match parseItems fuel rest with
               | some (items, rest2) => some (.arr items, rest2)
               | none => none)
      | '\x7b' :: rest =>
          (match skipWs rest with
           | '\x7d' :: rest2 => some (.obj [], rest2)
           | _ =>
               match parseMembers fuel rest with
               | some (fields, rest2) => some (.obj fields, rest2)
               | none => none)
      | '-' :: rest =>
          (match rest with
           | c :: _ =>
               if isDigitChar c then
                 let (n, rest2) := digitsToNat 0 rest
                 some (.num (-(n : Int)), rest2)
               else none
           | [] => none)
      | c :: rest =>
          if isDigitChar c then
            let (n, rest2) := digitsToNat 0 (c :: rest)
            some (.num (n : Int), rest2)
          else none
      | [] => none

def parseItems (fuel : Nat) (cs : List Char) : Option (List Json × List Char) :=
  match fuel with
  | 0 => none
  | fuel + 1 =>
      match parseValue fuel cs with
      | none => none
      | some (v, rest) =>
          match skipWs rest with
          | ',' :: rest2 =>
              (match parseItems fuel rest2 with
               | some (vs, rest3) => some (v :: vs, rest3)
               | none => none)
          | ']' :: rest2 => some ([v], rest2)
          | _ => none

def parseMembers (fuel : Nat) (cs : List Char) :
    Option (List (String × Json) × List Char) :=
  match fuel with
  | 0 => none
  | fuel + 1 =>
      match skipWs cs with
      | '"' :: rest =>
          (match parseStrBody fuel [] rest with
           | none => none
           | some (k, rest2) =>
               match skipWs rest2 with
               | ':' :: rest3 =>
                   (match parseValue fuel rest3 with
                    | none => none
                    | some (v, rest4) =>
                        match skipWs rest4 with
                        | ',' :: rest5 =>
                            (match parseMembers fuel rest5 with
                             | some (fs, rest6) => some ((k, v) :: fs, rest6)
                             | none => none)
                        | '\x7d' :: rest5 => some ([(k, v)], rest5)
                        | _ => none)
               | _ => none)
      | _ => none

end

/-- `_safe_json_loads` from `llm_proxy.py`: `json.loads` with all
exceptions mapped to `None`.  (Python also yields `None` for the JSON
text `"null"`; callers only distinguish dict/list results, so modelling
that result as `some .null` is observationally identical at every call
site, all of which treat non-container results uniformly.) -/
def safe_json_loads (raw : String) : Option Json :=
  match parseValue (raw.length + 1) raw.data with
  | some (j, rest) => if skipWs rest = [] then some j else none
  | none => none

example : safe_json_loads "\x7b\"cmd\": \"ls\"\x7d" = some (.obj [("cmd", .str "ls")]) := by
  decide

example : safe_json_loads (Json.dumps (.arr [.num (-3), .null, .str "a\nb"]))
    = some (.arr [.num (-3), .null, .str "a\nb"]) := by decide

example : safe_json_loads "not json" = none := by decide

/-! ## settings.py: routes and route matching -/

/-- `LLMProxyRoute` (settings.py:88-99). -/
structure LLMProxyRoute where
  name : String
  downstream_provider : String
  downstream_model : String
  upstream_provider : String
  upstream_base_url : String
  upstream_model : String
  upstream_api_key : String
  timeout_seconds : Int := 120
deriving Repr, DecidableEq

/-- `LLMProxyRoutingConfig` (settings.py:102-125). -/
structure LLMProxyRoutingConfig where
  routes : List LLMProxyRoute
  default_timeout_seconds : Int := 120
deriving Repr, DecidableEq

/-- `LLMProxyRoutingConfig.match` (settings.py:109-125).  Named
`matchRoute` because `match` is reserved in Lean.  The `raise ValueError`
on a miss is modelled as `none`. -/
def LLMProxyRoutingConfig.matchRoute (cfg : LLMProxyRoutingConfig)
    (downstream_provider downstream_model : String) : Option LLMProxyRoute :=
  let provider := downstream_provider.pyStrip.pyLower
  let model := downstream_model.pyStrip
  match cfg.routes.find? (fun r =>
      r.downstream_provider == provider && r.downstream_model == model) with
  | some r => some r
  | none =>
      cfg.routes.find? (fun r =>
        r.downstream_provider == provider && r.downstream_model == "*")

/-- Modelled from the spec: the `Route` of §3, which carries a `name`
primary lookup key and a `requestModel` alternative lookup key.  No type
with this shape exists in `src/agent2sandbox/settings.py` (its
`LLMProxyRoute` keys routes by `(downstream_provider, downstream_model)`
and uses `name` only as a label), while `llm_proxy.py` reads
`route.request_model` and calls `routing.match(requested_model)` with a
single argument as the spec describes. -/
structure SpecRoute where
  name : String
  requestModel : String
deriving Repr, DecidableEq

/-- Modelled from the spec: the §3 RouteTable lookup rule —
first route with `name == requested`; else first with
`requestModel == requested`; else first wildcard
(`name == "*"` or `requestModel == "*"`); else `RouteNotFound`. -/
def specRouteMatch (routes : List SpecRoute) (requested : String) :
    Option SpecRoute :=
  match routes.find? (fun r => r.name == requested) with
  | some r => some r
  | none =>
      match routes.find? (fun r => r.requestModel == requested) with
      | some r => some r
      | none => routes.find? (fun r => r.name == "*" || r.requestModel == "*")

/-! ## llm_proxy.py: small helpers -/

/- `_utc_now` and the various timestamp draws are external inputs; the
request-processing functions below take them as parameters. -/

/-- `_safe_file_token` (llm_proxy.py:32-33). -/
def safe_file_token (token : String) : String :=
  let kept := token.data.filter fun ch => ch.isAlphanum || ch = '-' || ch = '_'
  let s := String.mk (kept.take 64)
  if s = "" then "anonymous" else s

/-- `_extract_text_content` (llm_proxy.py:36-51). -/
def extract_text_content : Json → String
  | .str s => s
  | .arr blocks =>
      String.intercalate "\n" (blocks.filterMap fun block =>
        match block with
        | .obj fs =>
            if jsonLookup fs "type" = some (.str "text") then
              match jsonLookup fs "text" with
              | some (.str t) => some t
              | _ => none
            else none
        | _ => none)
  | .obj fs =>
      (match jsonLookup fs "text" with
       | some (.str t) => t
       | _ => "")
  | _ => ""

/-- `_normalize_anthropic_content_blocks` (llm_proxy.py:54-61). -/
def normalize_anthropic_content_blocks : Json → List Json
  | .str s => [.obj [("type", .str "text"), ("text", .str s)]]
  | .arr items => items.filter Json.isObj
  | .obj fs => [.obj fs]
  | _ => []

/-- `_serialize_block_content` (llm_proxy.py:71-82). -/
def serialize_block_content (content : Json) : String :=
  match content with
  | .null => ""
  | .str s => s
  | c =>
      let text := extract_text_content c
      if text ≠ "" then text else c.dumps

/-- `_anthropic_tool_choice_to_openai` (llm_proxy.py:85-105).  The
argument is the raw value of `body.get("tool_choice")`; a missing key
arrives as `.null` (Python `None`). -/
def anthropic_tool_choice_to_openai (value : Json) : Option Json :=
  match value with
  | .null => none
  | .str s =>
      let lowered := s.pyStrip.pyLower
      if lowered = "auto" ∨ lowered = "none" then some (.str lowered)
      else if lowered = "any" then some (.str "required")
      else none
  | .obj fs =>
      let choice_type := (pyStr ((jsonLookup fs "type").getD (.str ""))).pyStrip.pyLower
      if choice_type = "auto" ∨ choice_type = "none" then some (.str choice_type)
      else if choice_type = "any" then some (.str "required")
      else if choice_type = "tool" then
        let name := (pyStr ((jsonLookup fs "name").getD (.str ""))).pyStrip
        if name ≠ "" then
          some (.obj [("type", .str "function"),
                      ("function", .obj [("name", .str name)])])
        else none
      else none
  | _ => none

/-- `_openai_tool_choice_to_anthropic` (llm_proxy.py:108-126). -/
def openai_tool_choice_to_anthropic (value : Json) : Option Json :=
  match value with
  | .null => none
  | .str s =>
      let lowered := s.pyStrip.pyLower
      if lowered = "auto" ∨ lowered = "none" then some (.obj [("type", .str lowered)])
      else if lowered = "required" ∨ lowered = "any" then some (.obj [("type", .str "any")])
      else none
  | .obj fs =>
      let choice_type := (pyStr ((jsonLookup fs "type").getD (.str ""))).pyStrip.pyLower
      if choice_type = "function" then
        match jsonLookup fs "function" with
        | some (.obj ffs) =>
            let name := (pyStr ((jsonLookup ffs "name").getD (.str ""))).pyStrip
            if name ≠ "" then some (.obj [("type", .str "tool"), ("name", .str name)])
            else none
        | _ => none
      else none
  | _ => none

/-- `_anthropic_tools_to_openai` (llm_proxy.py:129-150). -/
def anthropic_tools_to_openai (raw_tools : Json) : List Json :=
  match raw_tools with
  | .arr items =>
      items.filterMap fun item =>
        match item with
        | .obj fs =>
            let name := (pyStr ((jsonLookup fs "name").getD (.str ""))).pyStrip
            if name = "" then none
            else
              let schema :=
                match jsonLookup fs "input_schema" with
                | some (.obj ps) => Json.obj ps
                | _ => .obj [("type", .str "object"), ("properties", .obj [])]
              let function :=
                match jsonLookup fs "description" with
                | some (.str d) =>
                    if d.pyStrip ≠ "" then
                      [("name", .str name), ("parameters", schema),
                       ("description", .str d)]
                    else [("name", .str name), ("parameters", schema)]
                | _ => [("name", .str name), ("parameters", schema)]
              some (.obj [("type", .str "function"), ("function", .obj function)])
        | _ => none
  | _ => []

/-- `_openai_tools_to_anthropic` (llm_proxy.py:153-179). -/
def openai_tools_to_anthropic (raw_tools : Json) : List Json :=
  match raw_tools with
  | .arr items =>
      items.filterMap fun item =>
        match item with
        | .obj fs =>
            if jsonLookup fs "type" = some (.str "function") then
              match jsonLookup fs "function" with
              | some (.obj ffs) =>
                  let name := (pyStr ((jsonLookup ffs "name").getD (.str ""))).pyStrip
                  if name = "" then none
                  else
                    let schema :=
                      match jsonLookup ffs "parameters" with
                      | some (.obj ps) => Json.obj ps
                      | _ => .obj [("type", .str "object"),
                                   ("properties", .obj [])]
                    let base := [("name", .str name), ("input_schema", schema)]
                    match jsonLookup ffs "description" with
                    | some (.str d) =>
                        if d.pyStrip ≠ "" then
                          some (.obj (base ++ [("description", .str d)]))
                        else some (.obj base)
                    | _ => some (.obj base)
              | _ => none
            else none
        | _ => none
  | _ => []

/-- `_join_url` (llm_proxy.py:376-380). -/
def rstripSlash (s : String) : String :=
  String.mk (s.data.reverse.dropWhile (· = '/')).reverse

def join_url (base_url suffix : String) : String :=
  let base := rstripSlash base_url
  if suffix.data.isSuffixOf base.data then base else base ++ suffix

/-! ## llm_proxy.py: request translators -/

/-- Stream of `uuid4().hex`-style draws; `g n` is the n-th draw of a
request's handling, threaded in Python evaluation order. -/
abbrev Supply := Nat → String

/-- Loop body of the `assistant` branch of `_anthropic_messages_to_openai`
(llm_proxy.py:202-230): collect text parts and `tool_calls` entries from
the content blocks.  A missing `tool_use` id draws `call_<12hex>` from the
supply (the draw is lazy: Python only evaluates the f-string when the
stripped id is falsy). -/
def a2oAssistantBlocks (g : Supply) : List Json → Nat → List String × List Json × Nat
  | [], ctr => ([], [], ctr)
  | block :: rest, ctr =>
      let bt := (pyStr (block.getD "type" (.str ""))).pyStrip
      if bt = "text" then
        match block.getField "text" with
        | some (.str t) =>
            let r := a2oAssistantBlocks g rest ctr
            (t :: r.1, r.2.1, r.2.2)
        | _ => a2oAssistantBlocks g rest ctr
      else if bt ≠ "tool_use" then a2oAssistantBlocks g rest ctr
      else
        let tool_name := (pyStr (block.getD "name" (.str ""))).pyStrip
        if tool_name = "" then a2oAssistantBlocks g rest ctr
        else
          let rawId := (pyStr (block.getD "id" (.str ""))).pyStrip
          let cc : String × Nat :=
            if rawId = "" then ("call_" ++ g ctr, ctr + 1) else (rawId, ctr)
          let raw_input := block.getD "input" (.obj [])
          let wrapped :=
            if raw_input.isContainer then raw_input else .obj [("value", raw_input)]
          let call : Json :=
            .obj [("id", .str cc.1), ("type", .str "function"),
                  ("function", .obj [("name", .str tool_name),
                                     ("arguments", .str wrapped.dumps)])]
          let r := a2oAssistantBlocks g rest cc.2
          (r.1, call :: r.2.1, r.2.2)

/-- Flush of pending user text (llm_proxy.py:243-246). -/
def flushPendingUserText (pending : List String) : List Json :=
  if pending.isEmpty then []
  else [.obj [("role", .str "user"),
              ("content", .str (String.intercalate "\n" pending))]]

/-- Loop body of the `user` branch of `_anthropic_messages_to_openai`
(llm_proxy.py:240-276). -/
def a2oUserBlocks : List Json → List String → List Json
  | [], pending => flushPendingUserText pending
  | block :: rest, pending =>
      let bt := (pyStr (block.getD "type" (.str ""))).pyStrip
      if bt = "text" then
        match block.getField "text" with
        | some (.str t) => a2oUserBlocks rest (pending ++ [t])
        | _ => a2oUserBlocks rest pending
      else if bt ≠ "tool_result" then a2oUserBlocks rest pending
      else
        let flushed := flushPendingUserText pending
        let call_id := (pyStr (block.getD "tool_use_id" (.str ""))).pyStrip
        let tool_text0 := serialize_block_content (block.getD "content" .null)
        let tool_text :=
          if block.getField "is_error" = some (.bool true) then
            "[tool_error]\n" ++ tool_text0
          else tool_text0
        if call_id ≠ "" then
          flushed ++
            [.obj [("role", .str "tool"), ("tool_call_id", .str call_id),
                   ("content", .str tool_text)]] ++
            a2oUserBlocks rest []
        else flushed ++ a2oUserBlocks rest [tool_text]

/-- One iteration of the message loop of `_anthropic_messages_to_openai`
(llm_proxy.py:194-283): the OpenAI messages contributed by one Anthropic
message. -/
def a2oMsg (g : Supply) (item : Json) (ctr : Nat) : List Json × Nat :=
  match item with
  | .obj _ =>
      let role := (pyStr (item.getD "role" (.str ""))).pyStrip
      if role = "assistant" then
        let blocks := normalize_anthropic_content_blocks (item.getD "content" .null)
        let ab := a2oAssistantBlocks g blocks ctr
        let text_parts := ab.1
        let tool_calls := ab.2.1
        let ctr2 := ab.2.2
        let content :=
          if text_parts.isEmpty then "" else String.intercalate "\n" text_parts
        let base := [("role", Json.str "assistant"), ("content", Json.str content)]
        let msg : Json :=
          if tool_calls.isEmpty then .obj base
          else .obj (base ++ [("tool_calls", Json.arr tool_calls)])
        if content ≠ "" ∨ ¬ tool_calls.isEmpty then ([msg], ctr2) else ([], ctr2)
      else if role = "user" then
        let blocks := normalize_anthropic_content_blocks (item.getD "content" .null)
        (a2oUserBlocks blocks [], ctr)
      else if role = "system" then
        let content := extract_text_content (item.getD "content" .null)
        if content ≠ "" then
          ([.obj [("role", .str "system"), ("content", .str content)]], ctr)
        else ([], ctr)
      else ([], ctr)
  | _ => ([], ctr)

def a2oGo (g : Supply) : List Json → Nat → List Json × Nat
  | [], ctr => ([], ctr)
  | item :: rest, ctr =>
      let a := a2oMsg g item ctr
      let b := a2oGo g rest a.2
      (a.1 ++ b.1, b.2)

/-- `_anthropic_messages_to_openai` (llm_proxy.py:182-283). -/
def anthropic_messages_to_openai (g : Supply) (body : Json) (ctr : Nat) :
    List Json × Nat :=
  let system := body.getD "system" .null
  let sysMsgs : List Json :=
    if pyTruthy system then
      let system_text := extract_text_content system
      if system_text ≠ "" then
        [.obj [("role", .str "system"), ("content", .str system_text)]]
      else []
    else []
  match body.getD "messages" (.arr []) with
  | .arr raw =>
      let a := a2oGo g raw ctr
      (sysMsgs ++ a.1, a.2)
  | _ => (sysMsgs, ctr)

/-- Loop over `tool_calls` in the `assistant` branch of
`_openai_messages_to_anthropic` (llm_proxy.py:329-354): the `tool_use`
content blocks.  A Python-`None` parse result (load failure or the JSON
text `null`) falls back to wrapping the raw arguments value. -/
def o2aToolCalls (g : Supply) : List Json → Nat → List Json × Nat
  | [], ctr => ([], ctr)
  | call :: rest, ctr =>
      match call with
      | .obj _ =>
          (match call.getField "function" with
           | some (.obj ffs) =>
               let name := (pyStr ((jsonLookup ffs "name").getD (.str ""))).pyStrip
               if name = "" then o2aToolCalls g rest ctr
               else
                 let rawId := (pyStr (call.getD "id" (.str ""))).pyStrip
                 let cc : String × Nat :=
                   if rawId = "" then ("toolu_" ++ g ctr, ctr + 1) else (rawId, ctr)
                 let rawArgs := (jsonLookup ffs "arguments").getD (.str "\x7b\x7d")
                 let parsedPy : Option Json :=
                   match rawArgs with
                   | .str s =>
                       (match safe_json_loads s with
                        | some .null => none
                        | some j => some j
                        | none => none)
                   | .null => none
                   | j => some j
                 let input : Json :=
                   match parsedPy with
                   | some (.obj fs2) => .obj fs2
                   | some (.arr xs) => .arr xs
                   | some j => .obj [("value", j)]
                   | none => .obj [("value", rawArgs)]
                 let block : Json :=
                   .obj [("type", .str "tool_use"), ("id", .str cc.1),
                         ("name", .str name), ("input", input)]
                 let r := o2aToolCalls g rest cc.2
                 (block :: r.1, r.2)
           | _ => o2aToolCalls g rest ctr)
      | _ => o2aToolCalls g rest ctr

/-- One iteration of the message loop of `_openai_messages_to_anthropic`
(llm_proxy.py:294-367): contributed Anthropic messages and system parts. -/
def o2aMsg (g : Supply) (item : Json) (ctr : Nat) :
    (List Json × List String) × Nat :=
  match item with
  | .obj _ =>
      let role := (pyStr (item.getD "role" (.str ""))).pyStrip
      if role = "system" then
        let system_text := serialize_block_content (item.getD "content" .null)
        if system_text ≠ "" then (([], [system_text]), ctr) else (([], []), ctr)
      else if role = "tool" then
        let tool_call_id := (pyStr (item.getD "tool_call_id" (.str ""))).pyStrip
        if tool_call_id = "" then (([], []), ctr)
        else
          let tool_text := serialize_block_content (item.getD "content" .null)
          (([.obj [("role", .str "user"),
                   ("content", .arr [.obj [("type", .str "tool_result"),
                                           ("tool_use_id", .str tool_call_id),
                                           ("content", .str tool_text)]])]], []),
           ctr)
      else if role = "assistant" then
        let assistant_text := serialize_block_content (item.getD "content" .null)
        let textBlocks : List Json :=
          if assistant_text ≠ "" then
            [.obj [("type", .str "text"), ("text", .str assistant_text)]]
          else []
        let tb : List Json × Nat :=
          match item.getField "tool_calls" with
          | some (.arr calls) => o2aToolCalls g calls ctr
          | _ => ([], ctr)
        let content_blocks := textBlocks ++ tb.1
        if content_blocks.isEmpty then (([], []), tb.2)
        else
          (([.obj [("role", .str "assistant"), ("content", .arr content_blocks)]], []),
           tb.2)
      else if role = "user" then
        let user_text := serialize_block_content (item.getD "content" .null)
        if user_text ≠ "" then
          (([.obj [("role", .str "user"),
                   ("content", .arr [.obj [("type", .str "text"),
                                           ("text", .str user_text)]])]], []),
           ctr)
        else (([], []), ctr)
      else (([], []), ctr)
  | _ => (([], []), ctr)

def o2aGo (g : Supply) : List Json → Nat → (List Json × List String) × Nat
  | [], ctr => (([], []), ctr)
  | item :: rest, ctr =>
      let a := o2aMsg g item ctr
      let b := o2aGo g rest a.2
      ((a.1.1 ++ b.1.1, a.1.2 ++ b.1.2), b.2)

/-- `_openai_messages_to_anthropic` (llm_proxy.py:286-373).  Returns the
Anthropic messages together with the derived `system` value (`none` when
no system parts were collected). -/
def openai_messages_to_anthropic (g : Supply) (raw : Json) (ctr : Nat) :
    (List Json × Option Json) × Nat :=
  match raw with
  | .arr items =>
      let a := o2aGo g items ctr
      let system : Option Json :=
        match a.1.2 with
        | [] => none
        | [s] => some (.str s)
        | _ => some (.arr [.obj [("type", .str "text"),
                                 ("text", .str (String.intercalate "\n" a.1.2))]])
      ((a.1.1, system), a.2)
  | _ => (([], none), ctr)

/-! ## llm_proxy.py: response converters -/

/-- Text-block collection of `_anthropic_response_from_openai`
(llm_proxy.py:740-749). -/
def respTextBlocks (message : Json) : List Json :=
  match message.getField "content" with
  | some (.str s) =>
      if s ≠ "" then [.obj [("type", .str "text"), ("text", .str s)]] else []
  | some (.arr items) =>
      items.filterMap fun it =>
        (match it with
         | .obj fs =>
             if jsonLookup fs "type" = some (.str "text") then
               match jsonLookup fs "text" with
               | some (.str t) =>
                   if t ≠ "" then
                     some (.obj [("type", .str "text"), ("text", .str t)])
                   else none
               | _ => none
             else none
         | _ => none)
  | _ => []

/-- Content blocks contributed by `choices[0].message`
(llm_proxy.py:738-781); the `tool_calls` loop at lines 753-781 is
textually a second copy of the loop embedded as `o2aToolCalls`
(llm_proxy.py:330-354) with identical semantics, so it is reused. -/
def respMsgBlocks (g : Supply) (message : Json) (ctr : Nat) : List Json × Nat :=
  match message with
  | .obj _ =>
      let tb : List Json × Nat :=
        match message.getField "tool_calls" with
        | some (.arr calls) => o2aToolCalls g calls ctr
        | _ => ([], ctr)
      (respTextBlocks message ++ tb.1, tb.2)
  | _ => ([], ctr)

/-- Content blocks and stop reason from the `choices` value
(llm_proxy.py:737-787). -/
def respChoiceData (g : Supply) (choices : Json) (ctr : Nat) :
    List Json × String × Nat :=
  match choices with
  | .arr (first :: _) =>
      (match first with
       | .obj _ =>
           let bc := respMsgBlocks g (first.getD "message" (.obj [])) ctr
           let sr :=
             if first.getField "finish_reason" = some (.str "length") then
               "max_tokens"
             else if first.getField "finish_reason" = some (.str "tool_calls") then
               "tool_use"
             else "end_turn"
           (bc.1, sr, bc.2)
       | _ => ([], "end_turn", ctr))
  | _ => ([], "end_turn", ctr)

/-- `ProxyRuntime._anthropic_response_from_openai` (llm_proxy.py:729-805).
The fresh `msg_<hex>` id is drawn after the content loop, matching Python
evaluation order. -/
def anthropic_response_from_openai (g : Supply) (openai_response : Json)
    (requested_model : Option String) (ctr : Nat) : Json × Nat :=
  let res := respChoiceData g (openai_response.getD "choices" (.arr [])) ctr
  let content_blocks := res.1
  let stop_reason := res.2.1
  let ctr2 := res.2.2
  let usage := openai_response.getD "usage" (.obj [])
  let input_tokens := if usage.isObj then pyInt (usage.getD "prompt_tokens" (.num 0)) else 0
  let output_tokens :=
    if usage.isObj then pyInt (usage.getD "completion_tokens" (.num 0)) else 0
  (.obj [("id", .str ("msg_" ++ g ctr2)),
         ("type", .str "message"),
         ("role", .str "assistant"),
         ("model", .str (match requested_model with
                         | some m => m
                         | none => "unknown-model")),
         ("content", .arr content_blocks),
         ("stop_reason", .str stop_reason),
         ("stop_sequence", .null),
         ("usage", .obj [("input_tokens", .num input_tokens),
                         ("output_tokens", .num output_tokens)])],
   ctr2 + 1)

/-- Content-block loop of `ProxyRuntime._openai_response_from_anthropic`
(llm_proxy.py:818-845): text parts (non-empty strings only) and OpenAI
`tool_calls` entries with stringified arguments. -/
def oRespBlocks (g : Supply) : List Json → Nat → List String × List Json × Nat
  | [], ctr => ([], [], ctr)
  | block :: rest, ctr =>
      match block with
      | .obj _ =>
          let bt := (pyStr (block.getD "type" (.str ""))).pyStrip
          if bt = "text" then
            match block.getField "text" with
            | some (.str t) =>
                if t ≠ "" then
                  let r := oRespBlocks g rest ctr
                  (t :: r.1, r.2.1, r.2.2)
                else oRespBlocks g rest ctr
            | _ => oRespBlocks g rest ctr
          else if bt ≠ "tool_use" then oRespBlocks g rest ctr
          else
            let name := (pyStr (block.getD "name" (.str ""))).pyStrip
            if name = "" then oRespBlocks g rest ctr
            else
              let rawId := (pyStr (block.getD "id" (.str ""))).pyStrip
              let cc : String × Nat :=
                if rawId = "" then ("call_" ++ g ctr, ctr + 1) else (rawId, ctr)
              let raw_input := block.getD "input" (.obj [])
              let wrapped :=
                if raw_input.isContainer then raw_input else .obj [("value", raw_input)]
              let call : Json :=
                .obj [("id", .str cc.1), ("type", .str "function"),
                      ("function", .obj [("name", .str name),
                                         ("arguments", .str wrapped.dumps)])]
              let r := oRespBlocks g rest cc.2
              (r.1, call :: r.2.1, r.2.2)
      | _ => oRespBlocks g rest ctr

/-- `ProxyRuntime._openai_response_from_anthropic` (llm_proxy.py:807-884).
`created` (`int(time.time())`) is the parameter `nowEpoch`.  The
`chatcmpl-<hex>` default id is an eagerly evaluated Python `dict.get`
default, so the supply is consumed whether or not the upstream id is
present. -/
def openai_response_from_anthropic (g : Supply) (anthropic_response : Json)
    (requested_model : Option String) (nowEpoch : Int) (ctr : Nat) : Json × Nat :=
  let blocks :=
    match anthropic_response.getD "content" (.arr []) with
    | .arr bs => bs
    | _ => []
  let ob := oRespBlocks g blocks ctr
  let text_parts := ob.1
  let tool_calls := ob.2.1
  let ctr2 := ob.2.2
  let stop_reason := anthropic_response.getField "stop_reason"
  let finish_reason :=
    if stop_reason = some (.str "max_tokens") then "length"
    else if stop_reason = some (.str "tool_use") then "tool_calls"
    else "stop"
  let usage := anthropic_response.getD "usage" (.obj [])
  let prompt_tokens := if usage.isObj then pyInt (usage.getD "input_tokens" (.num 0)) else 0
  let completion_tokens :=
    if usage.isObj then pyInt (usage.getD "output_tokens" (.num 0)) else 0
  let content :=
    if text_parts.isEmpty then "" else String.intercalate "\n" text_parts
  let messageBase := [("role", Json.str "assistant"), ("content", Json.str content)]
  let message : Json :=
    if tool_calls.isEmpty then .obj messageBase
    else .obj (messageBase ++ [("tool_calls", Json.arr tool_calls)])
  let idVal : Json :=
    match anthropic_response.getField "id" with
    | some v => v
    | none => .str ("chatcmpl-" ++ g ctr2)
  let modelStr : String :=
    match requested_model with
    | some m =>
        if m ≠ "" then m
        else
          let fromResp := (pyStr (anthropic_response.getD "model" (.str ""))).pyStrip
          if fromResp ≠ "" then fromResp else "unknown-model"
    | none =>
        let fromResp := (pyStr (anthropic_response.getD "model" (.str ""))).pyStrip
        if fromResp ≠ "" then fromResp else "unknown-model"
  (.obj [("id", idVal),
         ("object", .str "chat.completion"),
         ("created", .num nowEpoch),
         ("model", .str modelStr),
         ("choices", .arr [.obj [("index", .num 0),
                                 ("message", message),
                                 ("finish_reason", .str finish_reason)]]),
         ("usage", .obj [("prompt_tokens", .num prompt_tokens),
                         ("completion_tokens", .num completion_tokens),
                         ("total_tokens", .num (prompt_tokens + completion_tokens))])],
   ctr2 + 1)

/-! ## llm_proxy.py: reasoning cache and header masking -/

/-- Per-token reasoning cache: insertion-ordered key/value pairs with
CPython dict update semantics (keys are unique by construction). -/
abbrev ReasoningCache := List (String × String)

def cacheLookup (cache : ReasoningCache) (k : String) : Option String :=
  match cache with
  | [] => none
  | (k2, v) :: rest => if k2 = k then some v else cacheLookup rest k

def cacheSet (cache : ReasoningCache) (k : String) (v : String) : ReasoningCache :=
  match cache with
  | [] => [(k, v)]
  | (k2, v2) :: rest =>
      if k2 = k then (k2, v) :: rest else (k2, v2) :: cacheSet rest k v

def cacheSetMany (cache : ReasoningCache) (ks : List String) (v : String) :
    ReasoningCache :=
  match ks with
  | [] => cache
  | k :: rest => cacheSetMany (cacheSet cache k v) rest v

def cacheRemoveKey (cache : ReasoningCache) (k : String) : ReasoningCache :=
  match cache with
  | [] => []
  | (k2, v2) :: rest => if k2 = k then rest else (k2, v2) :: cacheRemoveKey rest k

/-- Eviction loop (llm_proxy.py:574-577): pop each of the first 256 keys
unless it is `__last__`. -/
def cacheEvict (cache : ReasoningCache) (keys : List String) : ReasoningCache :=
  match keys with
  | [] => cache
  | k :: rest =>
      if k = "__last__" then cacheEvict cache rest
      else cacheEvict (cacheRemoveKey cache k) rest

/-- Extraction part of `ProxyRuntime._remember_reasoning_for_tool_calls`
(llm_proxy.py:543-567): the reasoning string (non-blank) and the
non-empty tool-call ids, or `none` when any guard fails. -/
def reasoningExtract (openai_response : Json) : Option (String × List String) :=
  match openai_response.getField "choices" with
  | some (.arr (first :: _)) =>
      (match first with
       | .obj _ =>
           (match first.getField "message" with
            | some (.obj mfs) =>
                (match jsonLookup mfs "reasoning_content" with
                 | some (.str rc) =>
                     if rc.pyStrip = "" then none
                     else
                       (match jsonLookup mfs "tool_calls" with
                        | some (.arr calls) =>
                            let ids := calls.filterMap fun c =>
                              (match c with
                               | .obj _ =>
                                   let i := (pyStr (c.getD "id" (.str ""))).pyStrip
                                   if i ≠ "" then some i else none
                               | _ => none)
                            if ids.isEmpty then none else some (rc, ids)
                        | _ => none)
                 | _ => none)
            | _ => none)
       | _ => none)
  | _ => none

/-- Cache update of `ProxyRuntime._remember_reasoning_for_tool_calls`
(llm_proxy.py:569-577) applied to one token's cache. -/
def rememberIntoCache (openai_response : Json) (cache : ReasoningCache) :
    ReasoningCache :=
  match reasoningExtract openai_response with
  | none => cache
  | some (rc, ids) =>
      let c1 := cacheSet cache "__last__" rc
      let c2 := cacheSetMany c1 ids rc
      if c2.length > 1024 then cacheEvict c2 ((c2.map Prod.fst).take 256) else c2

/-- Per-message fill of `ProxyRuntime._inject_reasoning_content`
(llm_proxy.py:589-614). -/
def injectIntoMessage (cache : ReasoningCache) (message : Json) : Json :=
  match message with
  | .obj _ =>
      if (pyStr (message.getD "role" (.str ""))).pyStrip ≠ "assistant" then message
      else if message.hasField "reasoning_content" then message
      else
        match message.getField "tool_calls" with
        | some (.arr (c0 :: cs)) =>
            let v1 : Option String :=
              (c0 :: cs).findSome? fun c =>
                (match c with
                 | .obj _ =>
                     let i := (pyStr (c.getD "id" (.str ""))).pyStrip
                     if i ≠ "" then cacheLookup cache i else none
                 | _ => none)
            let vf : Option String :=
              match cacheLookup cache "__last__" with
              | some t => if t.pyStrip ≠ "" then some t else none
              | none => none
            let v : Option String :=
              if (v1.getD "") ≠ "" then v1 else vf
            (match v with
             | some s =>
                 if s ≠ "" then message.setField "reasoning_content" (.str s)
                 else message
             | none => message)
        | _ => message
  | _ => message

/-- `ProxyRuntime._inject_reasoning_content` (llm_proxy.py:579-614): maps
the per-message fill over the outgoing messages (the Python code mutates
them in place) using a snapshot of the token's cache; no-op when the
token has no cache entries. -/
def injectReasoningContent (cache : ReasoningCache) (messages : List Json) :
    List Json :=
  if cache.isEmpty then messages else messages.map (injectIntoMessage cache)

/-- `ProxyRuntime._masked_headers` (llm_proxy.py:616-624). -/
def masked_headers (headers : List (String × String)) : List (String × String) :=
  headers.map fun (k, v) =>
    let lowered := k.pyLower
    if lowered = "authorization" ∨ lowered = "x-api-key" ∨ lowered = "api-key" then
      (k, "***")
    else (k, v)

/-! ## llm_proxy.py: trajectory store -/

inductive LogKind where
  | event
  | query
  | answer
deriving Repr, DecidableEq

/-- One JSON file written under `<logDir>/<sanitizedToken>/`. -/
structure LogEntry where
  kind : LogKind
  token : String
  name : String
  record : Json
deriving Repr, DecidableEq

/-- `TrajectoryStore` state: the stem-collision counters and the files
written so far (newest first). -/
structure StoreState where
  counters : List ((String × String) × Nat) := []
  files : List LogEntry := []
deriving Repr, DecidableEq

def countersLookup (cs : List ((String × String) × Nat)) (k : String × String) :
    Option Nat :=
  match cs with
  | [] => none
  | (k2, v) :: rest => if k2 = k then some v else countersLookup rest k

def countersSet (cs : List ((String × String) × Nat)) (k : String × String)
    (v : Nat) : List ((String × String) × Nat) :=
  match cs with
  | [] => [(k, v)]
  | (k2, v2) :: rest =>
      if k2 = k then (k2, v) :: rest else (k2, v2) :: countersSet rest k v

/-- Zero-padding of `f"{count:03d}"`. -/
def pad3 (n : Nat) : String :=
  let s := toString n
  String.mk (List.replicate (3 - s.length) '0') ++ s

/-- `TrajectoryStore._alloc_stamp` (llm_proxy.py:420-427); `base` is the
second-resolution UTC timestamp string, an external input. -/
def allocStamp (token base : String) (st : StoreState) : String × StoreState :=
  let key := (safe_file_token token, base)
  let count := (countersLookup st.counters key).getD 0
  let st2 := { st with counters := countersSet st.counters key (count + 1) }
  if count = 0 then (base, st2) else (base ++ "-" ++ pad3 count, st2)

/-- `TrajectoryStore.append` (llm_proxy.py:434-442).  The microsecond
timestamp in the file name is the external input `now`; the record's
`timestamp` field uses the same draw (the two differ by microseconds in
Python, which no verified claim observes). -/
def storeAppend (token event_type now : String) (payload : Json)
    (st : StoreState) : StoreState :=
  let entry : LogEntry :=
    { kind := .event
      token := safe_file_token token
      name := now ++ "-" ++ safe_file_token event_type
      record := .obj [("timestamp", .str now), ("event_type", .str event_type),
                      ("payload", payload)] }
  { st with files := entry :: st.files }

/-- `TrajectoryStore.write_query` (llm_proxy.py:444-454). -/
def writeQuery (token base now : String) (payload : Json) (st : StoreState) :
    String × StoreState :=
  let as := allocStamp token base st
  let entry : LogEntry :=
    { kind := .query
      token := safe_file_token token
      name := as.1
      record := .obj [("timestamp", .str as.1), ("captured_at", .str now),
                      ("payload", payload)] }
  (as.1, { as.2 with files := entry :: as.2.files })

/-- `TrajectoryStore.write_answer` (llm_proxy.py:456-465). -/
def writeAnswer (token stamp now : String) (payload : Json) (st : StoreState) :
    StoreState :=
  let entry : LogEntry :=
    { kind := .answer
      token := safe_file_token token
      name := stamp
      record := .obj [("timestamp", .str stamp), ("captured_at", .str now),
                      ("payload", payload)] }
  { st with files := entry :: st.files }

/-! ## llm_proxy.py: upstream client and runtime -/

/-- Raw upstream response body: either bytes that decode to a JSON
serialization of `j` (as produced by a JSON-speaking upstream or by the
synthesized network-error payload) or arbitrary text. -/
inductive HttpBody where
  | jsonBody (j : Json)
  | textBody (s : String)
deriving Repr, DecidableEq

/-- The decoded body string (`.decode("utf-8", errors="replace")`). -/
def bodyText : HttpBody → String
  | .jsonBody j => j.dumps
  | .textBody s => s

/-- `UpstreamHTTPResult` (llm_proxy.py:392-396). -/
structure UpstreamHTTPResult where
  status_code : Nat
  content_type : String
  body : HttpBody
deriving Repr, DecidableEq

/-- What the network does for the single upstream POST of a request path:
a response (also used for `urllib.error.HTTPError`, which
`_post_json` converts to the same shape) or a `URLError`-class failure
(DNS, connect, timeout) with its message. -/
inductive NetOutcome where
  | http (status : Nat) (content_type : String) (body : HttpBody)
  | netErr (msg : String)
deriving Repr, DecidableEq

/-- The synthesized network-error body (llm_proxy.py:716-722). -/
def networkErrorPayload (msg : String) : Json :=
  .obj [("type", .str "error"),
        ("error", .obj [("type", .str "network_error"), ("message", .str msg)])]

/-- `ProxyRuntime._post_json` (llm_proxy.py:683-727): the request
parameters determine the `NetOutcome` via the external network, which the
embedding abstracts as an input; the failure mapping is the code's. -/
def post_json (outcome : NetOutcome) : UpstreamHTTPResult :=
  match outcome with
  | .http status ct body => ⟨status, ct, body⟩
  | .netErr msg => ⟨502, "application/json", .jsonBody (networkErrorPayload msg)⟩

/-- `ProxyRuntime._parse_json_body` (llm_proxy.py:674-681): JSON-decode
the body, keeping only dict results.  On a `jsonBody j` the bytes are the
serialization of `j` and Python's `json.loads` recovers `j`. -/
def parse_json_body (result : UpstreamHTTPResult) : Option Json :=
  match result.body with
  | .jsonBody j => if j.isObj then some j else none
  | .textBody s =>
      match safe_json_loads s with
      | some j => if j.isObj then some j else none
      | none => none

/-- Payload of a `ProxyResponse`: a JSON body or a raw SSE text body. -/
inductive RespPayload where
  | js (j : Json)
  | raw (s : String)
deriving Repr, DecidableEq

/-- `ProxyResponse` (llm_proxy.py:399-403); `mode` is one of `"json"`,
`"sse_synth"`, `"sse_raw"`. -/
structure ProxyResponse where
  status_code : Nat
  payload : RespPayload
  mode : String := "json"
deriving Repr, DecidableEq

/-- `ProxyRuntime._error_response` (llm_proxy.py:886-896). -/
def error_response (status_code : Nat) (error_type message : String) :
    ProxyResponse :=
  { status_code := status_code
    payload := .js (.obj [("type", .str "error"),
                          ("error", .obj [("type", .str error_type),
                                          ("message", .str message)])])
    mode := "json" }

/-- Mutable runtime state touched by a request: the trajectory store, the
per-token reasoning caches, and the position in the uuid supply.  (The
session registry `_sessions` only feeds the `/sessions` endpoint and the
`updated_at` bookkeeping, which no verified claim observes; it is
elided.) -/
structure RuntimeState where
  store : StoreState := {}
  reasoning : List (String × ReasoningCache) := []
  ctr : Nat := 0
deriving Repr, DecidableEq

/-- External inputs of one request's handling: the uuid supply, the
record timestamp string, `time.time()`, and the second-resolution stamp
base used by `_alloc_stamp`. -/
structure ReqEnv where
  g : Supply
  now : String := "t"
  nowEpoch : Int := 0
  qaBase : String := "b"

def reasoningFor (st : RuntimeState) (token : String) : ReasoningCache :=
  match st.reasoning.find? (fun p => p.1 = token) with
  | some p => p.2
  | none => []

def setReasoningCache (st : RuntimeState) (token : String)
    (cache : ReasoningCache) : RuntimeState :=
  if st.reasoning.any (fun p => p.1 = token) then
    { st with reasoning := st.reasoning.map fun p =>
        if p.1 = token then (token, cache) else p }
  else { st with reasoning := st.reasoning ++ [(token, cache)] }

/-- `ProxyRuntime.record_event` (llm_proxy.py:514-520) minus the session
`updated_at` bump (elided, see `RuntimeState`). -/
def recordEvent (token event_type : String) (payload : Json) (env : ReqEnv)
    (st : RuntimeState) : RuntimeState :=
  { st with store := storeAppend token event_type env.now payload st.store }

/-- `ProxyRuntime._remember_reasoning_for_tool_calls`
(llm_proxy.py:538-577). -/
def rememberReasoning (token : String) (openai_response : Json)
    (st : RuntimeState) : RuntimeState :=
  match reasoningExtract openai_response with
  | none => st
  | some _ =>
      setReasoningCache st token
        (rememberIntoCache openai_response (reasoningFor st token))

/-- `ProxyRuntime._log_upstream_query` (llm_proxy.py:626-645). -/
def logUpstreamQuery (token : String) (route : LLMProxyRoute)
    (downstream_protocol upstream_url : String)
    (upstream_headers : List (String × String)) (upstream_payload : Json)
    (env : ReqEnv) (st : RuntimeState) : String × RuntimeState :=
  let record : Json :=
    .obj [("route_name", .str route.name),
          ("downstream_protocol", .str downstream_protocol),
          ("upstream_provider", .str route.upstream_provider),
          ("upstream_url", .str upstream_url),
          ("upstream_headers",
            .obj ((masked_headers upstream_headers).map fun (k, v) => (k, .str v))),
          ("request_body", upstream_payload)]
  let ws := writeQuery token env.qaBase env.now record st.store
  (ws.1, { st with store := ws.2 })

/-- `ProxyRuntime._log_upstream_answer` (llm_proxy.py:647-672). -/
def logUpstreamAnswer (token stamp : String) (route : LLMProxyRoute)
    (downstream_protocol : String) (upstream_result : UpstreamHTTPResult)
    (upstream_json : Option Json) (downstream_payload : Option Json)
    (env : ReqEnv) (st : RuntimeState) : RuntimeState :=
  let base : List (String × Json) :=
    [("route_name", .str route.name),
     ("downstream_protocol", .str downstream_protocol),
     ("upstream_provider", .str route.upstream_provider),
     ("status_code", .num upstream_result.status_code),
     ("content_type", .str upstream_result.content_type)]
  let withBody :=
    match upstream_json with
    | some j => base ++ [("upstream_response_body", j)]
    | none => base ++ [("upstream_response_text", .str (bodyText upstream_result.body))]
  let record : Json :=
    match downstream_payload with
    | some d => .obj (withBody ++ [("downstream_response_body", d)])
    | none => .obj withBody
  { st with store := writeAnswer token stamp env.now record st.store }

/-- The `TypeError` text Python raises at llm_proxy.py:904, where
`_select_route` calls `self.routing.match(requested_model)` with a single
positional argument although `LLMProxyRoutingConfig.match`
(settings.py:109) requires two (`downstream_provider`,
`downstream_model`). -/
def matchArityErrorMsg : String :=
  "LLMProxyRoutingConfig.match() missing 1 required positional argument: 'downstream_model'"

/-- `ProxyRuntime._select_route` (llm_proxy.py:898-925).  The call at
line 904 passes one argument to the two-argument
`LLMProxyRoutingConfig.match`, so CPython raises `TypeError` before the
body of `match` runs; the `except Exception` branch records a
`route_not_found` event carrying `str(exc)` and returns `None`.  The
route table `cfg` is therefore never consulted, whatever it contains. -/
def select_route (cfg : LLMProxyRoutingConfig) (token requested_model : String)
    (env : ReqEnv) (st : RuntimeState) : Option LLMProxyRoute × RuntimeState :=
  let _ := cfg
  let st2 := recordEvent token "route_not_found"
    (.obj [("requested_model", .str requested_model),
           ("error", .str matchArityErrorMsg)]) env st
  (none, st2)

/-- `ProxyRuntime._process_anthropic_passthrough` (llm_proxy.py:927-1029). -/
def process_anthropic_passthrough (token : String) (route : LLMProxyRoute)
    (body : Json) (outcome : NetOutcome) (env : ReqEnv) (st : RuntimeState) :
    ProxyResponse × RuntimeState :=
  let upstream_payload := body.setField "model" (.str route.upstream_model)
  let upstream_url := join_url route.upstream_base_url "/v1/messages"
  let upstream_headers :=
    [("x-api-key", route.upstream_api_key), ("anthropic-version", "2023-06-01")]
  let lq := logUpstreamQuery token route "anthropic" upstream_url
    upstream_headers upstream_payload env st
  let qa_stamp := lq.1
  let st1 := lq.2
  let upstream_result := post_json outcome
  let stream_requested := body.getField "stream" = some (.bool true)
  if upstream_result.status_code ≥ 400 then
    let decoded := bodyText upstream_result.body
    let st2 := logUpstreamAnswer token qa_stamp route "anthropic" upstream_result
      none none env st1
    let st3 := recordEvent token "upstream_error"
      (.obj [("status_code", .num upstream_result.status_code),
             ("upstream_provider", .str route.upstream_provider),
             ("error", .str (strTake decoded 1000))]) env st2
    (error_response upstream_result.status_code "upstream_error" decoded, st3)
  else
    let st2 := recordEvent token "anthropic_passthrough"
      (.obj [("route_name", .str route.name),
             ("stream", .bool stream_requested),
             ("status_code", .num upstream_result.status_code),
             ("content_type", .str upstream_result.content_type)]) env st1
    if stream_requested ∧
        strContains upstream_result.content_type.pyLower "text/event-stream" then
      let st3 := logUpstreamAnswer token qa_stamp route "anthropic" upstream_result
        none none env st2
      ({ status_code := upstream_result.status_code
         payload := .raw (bodyText upstream_result.body)
         mode := "sse_raw" }, st3)
    else
      match parse_json_body upstream_result with
      | none =>
          let st3 := logUpstreamAnswer token qa_stamp route "anthropic"
            upstream_result none none env st2
          (error_response 502 "invalid_upstream_response"
            "Anthropic upstream returned non-JSON response", st3)
      | some parsed =>
          let st3 := logUpstreamAnswer token qa_stamp route "anthropic"
            upstream_result (some parsed) (some parsed) env st2
          ({ status_code := upstream_result.status_code
             payload := .js parsed
             mode := "json" }, st3)

/-- `ProxyRuntime._process_anthropic_to_openai` (llm_proxy.py:1031-1145). -/
def process_anthropic_to_openai (token : String) (route : LLMProxyRoute)
    (body : Json) (outcome : NetOutcome) (env : ReqEnv) (st : RuntimeState) :
    ProxyResponse × RuntimeState :=
  let requested_model := body.getField "model"
  let ao := anthropic_messages_to_openai env.g body st.ctr
  let msgs := ao.1
  let ctr1 := ao.2
  let injected := injectReasoningContent (reasoningFor st token) msgs
  let baseFields : List (String × Json) :=
    [("model", .str route.upstream_model),
     ("messages", .arr injected),
     ("max_tokens", .num (pyInt (body.getD "max_tokens" (.num 1024))))]
  let withTemp :=
    match body.getField "temperature" with
    | some t => baseFields ++ [("temperature", t)]
    | none => baseFields
  let withTopP :=
    match body.getField "top_p" with
    | some t => withTemp ++ [("top_p", t)]
    | none => withTemp
  let stop_sequences := body.getD "stop_sequences" .null
  let withStop :=
    if pyTruthy stop_sequences then withTopP ++ [("stop", stop_sequences)]
    else withTopP
  let tools := anthropic_tools_to_openai (body.getD "tools" .null)
  let withTools :=
    if tools.isEmpty then withStop
    else
      match anthropic_tool_choice_to_openai (body.getD "tool_choice" .null) with
      | some tc => withStop ++ [("tools", Json.arr tools), ("tool_choice", tc)]
      | none => withStop ++ [("tools", Json.arr tools)]
  let openai_payload : Json := .obj withTools
  let upstream_url := join_url route.upstream_base_url "/chat/completions"
  let upstream_headers := [("Authorization", "Bearer " ++ route.upstream_api_key)]
  let st0 := { st with ctr := ctr1 }
  let lq := logUpstreamQuery token route "anthropic" upstream_url
    upstream_headers openai_payload env st0
  let qa_stamp := lq.1
  let st1 := lq.2
  let upstream_result := post_json outcome
  match parse_json_body upstream_result with
  | none =>
      let st2 := logUpstreamAnswer token qa_stamp route "anthropic" upstream_result
        none none env st1
      let decoded := bodyText upstream_result.body
      (error_response 502 "invalid_upstream_response" decoded, st2)
  | some upstream_json =>
      if upstream_result.status_code ≥ 400 then
        let st2 := recordEvent token "upstream_error"
          (.obj [("status_code", .num upstream_result.status_code),
                 ("upstream_provider", .str route.upstream_provider),
                 ("error", upstream_json)]) env st1
        let st3 := logUpstreamAnswer token qa_stamp route "anthropic"
          upstream_result (some upstream_json) none env st2
        (error_response upstream_result.status_code "upstream_error"
          upstream_json.dumps, st3)
      else
        let ar := anthropic_response_from_openai env.g
          upstream_json
          (match requested_model with
           | some (.str s) => some s
           | _ => none)
          st1.ctr
        let anthropic_response := ar.1
        let ctr2 := ar.2
        let st2 := rememberReasoning token upstream_json { st1 with ctr := ctr2 }
        let st3 := recordEvent token "anthropic_converted_response"
          (.obj [("route_name", .str route.name),
                 ("status_code", .num upstream_result.status_code),
                 ("output_tokens",
                   (anthropic_response.getD "usage" (.obj [])).getD
                     "output_tokens" (.num 0))]) env st2
        let st4 := logUpstreamAnswer token qa_stamp route "anthropic"
          upstream_result (some upstream_json) (some anthropic_response) env st3
        if body.getField "stream" = some (.bool true) then
          ({ status_code := 200, payload := .js anthropic_response,
             mode := "sse_synth" }, st4)
        else
          ({ status_code := 200, payload := .js anthropic_response,
             mode := "json" }, st4)

/-- `ProxyRuntime.process_anthropic_messages` (llm_proxy.py:1147-1185). -/
def process_anthropic_messages (cfg : LLMProxyRoutingConfig) (token : String)
    (body : Json) (outcome : NetOutcome) (env : ReqEnv) (st : RuntimeState) :
    ProxyResponse × RuntimeState :=
  let requested_model := (pyStr (body.getD "model" (.str ""))).pyStrip
  if requested_model = "" then
    (error_response 400 "bad_request" "`model` is required in anthropic request body",
     st)
  else
    let messages_count : Int :=
      match body.getField "messages" with
      | some (.arr ms) => ms.length
      | _ => 0
    let st1 := recordEvent token "anthropic_request"
      (.obj [("requested_model", .str requested_model),
             ("stream", .bool (body.getField "stream" = some (.bool true))),
             ("messages_count", .num messages_count)]) env st
    match select_route cfg token requested_model env st1 with
    | (none, st2) =>
        (error_response 404 "route_not_found"
          ("No route for anthropic model: " ++ requested_model), st2)
    | (some route, st2) =>
        if route.upstream_provider = "anthropic" then
          process_anthropic_passthrough token route body outcome env st2
        else process_anthropic_to_openai token route body outcome env st2

/-- OpenAI-upstream passthrough branch of
`ProxyRuntime.process_openai_chat_completions` (llm_proxy.py:1210-1256). -/
def process_openai_passthrough (token : String) (route : LLMProxyRoute)
    (body : Json) (outcome : NetOutcome) (env : ReqEnv) (st : RuntimeState) :
    ProxyResponse × RuntimeState :=
  let payload0 := body.setField "model" (.str route.upstream_model)
  let payload :=
    match payload0.getField "messages" with
    | some (.arr msgs) =>
        payload0.setField "messages"
          (.arr (injectReasoningContent (reasoningFor st token) msgs))
    | _ => payload0
  let upstream_url := join_url route.upstream_base_url "/chat/completions"
  let upstream_headers := [("Authorization", "Bearer " ++ route.upstream_api_key)]
  let lq := logUpstreamQuery token route "openai" upstream_url
    upstream_headers payload env st
  let qa_stamp := lq.1
  let st1 := lq.2
  let upstream_result := post_json outcome
  match parse_json_body upstream_result with
  | none =>
      let st2 := logUpstreamAnswer token qa_stamp route "openai" upstream_result
        none none env st1
      let decoded := bodyText upstream_result.body
      (error_response 502 "invalid_upstream_response" decoded, st2)
  | some upstream_json =>
      let st2 := logUpstreamAnswer token qa_stamp route "openai" upstream_result
        (some upstream_json) (some upstream_json) env st1
      let st3 := rememberReasoning token upstream_json st2
      ({ status_code := upstream_result.status_code
         payload := .js upstream_json
         mode := "json" }, st3)

/-- Anthropic-upstream branch of
`ProxyRuntime.process_openai_chat_completions` (llm_proxy.py:1258-1343). -/
def process_openai_to_anthropic (token : String) (route : LLMProxyRoute)
    (body : Json) (outcome : NetOutcome) (env : ReqEnv) (st : RuntimeState)
    (requested_model : String) : ProxyResponse × RuntimeState :=
  let oa := openai_messages_to_anthropic env.g (body.getD "messages" .null) st.ctr
  let anthropic_messages := oa.1.1
  let anthropic_system := oa.1.2
  let ctr1 := oa.2
  let maxTok := body.getD "max_tokens" (body.getD "max_completion_tokens" (.num 1024))
  let baseFields : List (String × Json) :=
    [("model", .str route.upstream_model),
     ("messages", .arr anthropic_messages),
     ("max_tokens", .num (pyInt maxTok))]
  let withSys :=
    match anthropic_system with
    | some s => baseFields ++ [("system", s)]
    | none => baseFields
  let withTemp :=
    match body.getField "temperature" with
    | some t => withSys ++ [("temperature", t)]
    | none => withSys
  let withTopP :=
    match body.getField "top_p" with
    | some t => withTemp ++ [("top_p", t)]
    | none => withTemp
  let anthropic_tools := openai_tools_to_anthropic (body.getD "tools" .null)
  let withTools :=
    if anthropic_tools.isEmpty then withTopP
    else
      match openai_tool_choice_to_anthropic (body.getD "tool_choice" .null) with
      | some tc => withTopP ++ [("tools", Json.arr anthropic_tools), ("tool_choice", tc)]
      | none => withTopP ++ [("tools", Json.arr anthropic_tools)]
  let anthropic_payload : Json := .obj withTools
  let upstream_url := join_url route.upstream_base_url "/v1/messages"
  let upstream_headers :=
    [("x-api-key", route.upstream_api_key), ("anthropic-version", "2023-06-01")]
  let st0 := { st with ctr := ctr1 }
  let lq := logUpstreamQuery token route "openai" upstream_url
    upstream_headers anthropic_payload env st0
  let qa_stamp := lq.1
  let st1 := lq.2
  let upstream_result := post_json outcome
  match parse_json_body upstream_result with
  | none =>
      let st2 := logUpstreamAnswer token qa_stamp route "openai" upstream_result
        none none env st1
      let decoded := bodyText upstream_result.body
      (error_response 502 "invalid_upstream_response" decoded, st2)
  | some anthropic_json =>
      if upstream_result.status_code ≥ 400 then
        let st2 := logUpstreamAnswer token qa_stamp route "openai" upstream_result
          (some anthropic_json) none env st1
        (error_response upstream_result.status_code "upstream_error"
          anthropic_json.dumps, st2)
      else
        let orp := openai_response_from_anthropic env.g
          anthropic_json (some requested_model) env.nowEpoch st1.ctr
        let openai_response := orp.1
        let ctr2 := orp.2
        let st2 := logUpstreamAnswer token qa_stamp route "openai" upstream_result
          (some anthropic_json) (some openai_response) env { st1 with ctr := ctr2 }
        ({ status_code := 200, payload := .js openai_response, mode := "json" }, st2)

/-- `ProxyRuntime.process_openai_chat_completions` (llm_proxy.py:1187-1343). -/
def process_openai_chat_completions (cfg : LLMProxyRoutingConfig) (token : String)
    (body : Json) (outcome : NetOutcome) (env : ReqEnv) (st : RuntimeState) :
    ProxyResponse × RuntimeState :=
  let requested_model := (pyStr (body.getD "model" (.str ""))).pyStrip
  if requested_model = "" then
    (error_response 400 "bad_request" "`model` is required in openai request body", st)
  else
    match select_route cfg token requested_model env st with
    | (none, st2) =>
        (error_response 404 "route_not_found"
          ("No route for openai model: " ++ requested_model), st2)
    | (some route, st2) =>
        if route.upstream_provider = "openai" then
          process_openai_passthrough token route body outcome env st2
        else process_openai_to_anthropic token route body outcome env st2 requested_model

/-! ## llm_proxy.py: synthesized SSE stream -/

/-- Per-block events of `ProxyRequestHandler._send_sse_message`
(llm_proxy.py:1399-1480), over the enumerated content blocks.  The
`toolu_<12hex>` default id of a `tool_use` block is an eagerly evaluated
`dict.get` default, so the supply is consumed for every `tool_use`
block. -/
def sseBlockEvents (g : Supply) : List (Nat × Json) → Nat →
    List (String × Json) × Nat
  | [], ctr => ([], ctr)
  | (index, block) :: rest, ctr =>
      match block with
      | .obj _ =>
          let bt := (pyStr (block.getD "type" (.str ""))).pyStrip
          if bt = "text" then
            let evs : List (String × Json) :=
              [("content_block_start",
                .obj [("type", .str "content_block_start"), ("index", .num index),
                      ("content_block", .obj [("type", .str "text"),
                                              ("text", .str "")])]),
               ("content_block_delta",
                .obj [("type", .str "content_block_delta"), ("index", .num index),
                      ("delta", .obj [("type", .str "text_delta"),
                                      ("text", .str (pyStr (block.getD "text"
                                        (.str ""))))])]),
               ("content_block_stop",
                .obj [("type", .str "content_block_stop"), ("index", .num index)])]
            let (evs2, ctr2) := sseBlockEvents g rest ctr
            (evs ++ evs2, ctr2)
          else if bt = "tool_use" then
            let tool_input := block.getD "input" (.obj [])
            let wrapped :=
              if tool_input.isContainer then tool_input
              else .obj [("value", tool_input)]
            let idStr :=
              match block.getField "id" with
              | some v => pyStr v
              | none => "toolu_" ++ g ctr
            let tool_block : Json :=
              .obj [("type", .str "tool_use"), ("id", .str idStr),
                    ("name", .str (pyStr (block.getD "name" (.str "")))),
                    ("input", .obj [])]
            let evs : List (String × Json) :=
              [("content_block_start",
                .obj [("type", .str "content_block_start"), ("index", .num index),
                      ("content_block", tool_block)]),
               ("content_block_delta",
                .obj [("type", .str "content_block_delta"), ("index", .num index),
                      ("delta", .obj [("type", .str "input_json_delta"),
                                      ("partial_json", .str wrapped.dumps)])]),
               ("content_block_stop",
                .obj [("type", .str "content_block_stop"), ("index", .num index)])]
            let (evs2, ctr2) := sseBlockEvents g rest (ctr + 1)
            (evs ++ evs2, ctr2)
          else
            let evs : List (String × Json) :=
              [("content_block_start",
                .obj [("type", .str "content_block_start"), ("index", .num index),
                      ("content_block", block)]),
               ("content_block_stop",
                .obj [("type", .str "content_block_stop"), ("index", .num index)])]
            let (evs2, ctr2) := sseBlockEvents g rest ctr
            (evs ++ evs2, ctr2)
      | _ => sseBlockEvents g rest ctr

/-- Event-list construction of `ProxyRequestHandler._send_sse_message`
(llm_proxy.py:1372-1494). -/
def sendSseEvents (g : Supply) (payload : Json) (ctr : Nat) :
    List (String × Json) × Nat :=
  let content_blocks :=
    match payload.getD "content" (.arr []) with
    | .arr bs => bs
    | _ => []
  let msgId : Json :=
    match payload.getField "id" with
    | some v => v
    | none => .str ("msg_" ++ g ctr)
  let ctr1 := ctr + 1
  let usage := payload.getD "usage" (.obj [])
  let input_tokens :=
    match usage with
    | .obj ufs => (jsonLookup ufs "input_tokens").getD (.num 0)
    | _ => .num 0
  let message_obj : Json :=
    .obj [("id", msgId), ("type", .str "message"), ("role", .str "assistant"),
          ("content", .arr []), ("model", payload.getD "model" .null),
          ("stop_reason", .null), ("stop_sequence", .null),
          ("usage", .obj [("input_tokens", input_tokens),
                          ("output_tokens", .num 0)])]
  let output_tokens : Int :=
    if usage.isObj then pyInt (usage.getD "output_tokens" (.num 0)) else 0
  let stop_reason := payload.getD "stop_reason" (.str "end_turn")
  let be := sseBlockEvents g content_blocks.enum ctr1
  let blockEvents := be.1
  (([("message_start", .obj [("type", .str "message_start"),
                             ("message", message_obj)])] ++
    blockEvents ++
    [("message_delta",
      .obj [("type", .str "message_delta"),
            ("delta", .obj [("stop_reason", stop_reason),
                            ("stop_sequence", .null)]),
            ("usage", .obj [("output_tokens", .num output_tokens)])]),
     ("message_stop", .obj [("type", .str "message_stop")])]),
   be.2)

/-- Rendering of the event list into the SSE body
(llm_proxy.py:1496-1501). -/
def sseRender (events : List (String × Json)) : String :=
  String.join (events.map fun (e, d) =>
    "event: " ++ e ++ "\n" ++ "data: " ++ d.dumps ++ "\n\n")

/-! ## Observables over responses and trajectory state -/

/-- The `error.type` string of a JSON error response body. -/
def respErrorType (r : ProxyResponse) : Option Json :=
  match r.payload with
  | .js j =>
      (match j.getField "error" with
       | some e => e.getField "type"
       | none => none)
  | .raw _ => none

/-- The `error.message` string of a JSON error response body. -/
def respErrorMessage (r : ProxyResponse) : Option Json :=
  match r.payload with
  | .js j =>
      (match j.getField "error" with
       | some e => e.getField "message"
       | none => none)
  | .raw _ => none

def isQueryEntry (f : LogEntry) : Bool :=
  match f.kind with
  | .query => true
  | _ => false

def isAnswerEntry (f : LogEntry) : Bool :=
  match f.kind with
  | .answer => true
  | _ => false

/-- Stems of `query/` files, newest first. -/
def queryStems (st : StoreState) : List String :=
  (st.files.filter isQueryEntry).map LogEntry.name

/-- Stems of `answer/` files, newest first. -/
def answerStems (st : StoreState) : List String :=
  (st.files.filter isAnswerEntry).map LogEntry.name

instance : BEq Json := ⟨fun a b => Json.beq a b⟩

instance : LawfulBEq Json where
  eq_of_beq h := (Json.beq_iff _ _).1 h
  rfl := (Json.beq_iff _ _).2 rfl

/-- Does the store contain an `events/` file for `event_type`? -/
def hasEvent (st : StoreState) (event_type : String) : Bool :=
  st.files.any fun f =>
    (match f.kind with | .event => true | _ => false) &&
      f.record.getField "event_type" == some (.str event_type)

/-! ## C1 / C2: route selection -/

def c1Route : LLMProxyRoute :=
  { name := "model-a"
    downstream_provider := "anthropic"
    downstream_model := "model-a"
    upstream_provider := "anthropic"
    upstream_base_url := "http://up"
    upstream_model := "m-up"
    upstream_api_key := "k" }

def c1Cfg : LLMProxyRoutingConfig := { routes := [c1Route] }

def c1Body : Json := .obj [("model", .str "model-a"), ("messages", .arr [])]

def cSupply : Supply := fun n => toString n

def cEnv : ReqEnv := { g := cSupply }

def c1Outcome : NetOutcome := .http 200 "application/json" (.jsonBody (.obj []))

/-- C1: the claim says that an inbound chat request whose requested model
matches a route of the configured table is dispatched upstream, and that
the 404 `route_not_found` error plus `route_not_found` event occur
exactly on a lookup miss.  On the code this fails: `_select_route`
(llm_proxy.py:904) calls `LLMProxyRoutingConfig.match` with one argument
while `settings.py:109` requires two, so the call raises `TypeError`,
which the `except` branch converts to `route_not_found`.  Here the table
contains a route that matches the requested model `model-a` both under
the spec's §3 rule and under `match`'s own `(provider, model)` rule, yet
the runtime returns 404 `route_not_found`, records a `route_not_found`
event carrying the `TypeError` text, and never issues an upstream call
(no `query` file). -/
theorem C1_matching_request_gets_route_not_found :
    c1Cfg.matchRoute "anthropic" "model-a" = some c1Route ∧
    specRouteMatch [{ name := "model-a", requestModel := "model-a" }] "model-a"
      = some { name := "model-a", requestModel := "model-a" } ∧
    (process_anthropic_messages c1Cfg "tok" c1Body c1Outcome cEnv {}).1.status_code
      = 404 ∧
    respErrorType (process_anthropic_messages c1Cfg "tok" c1Body c1Outcome cEnv {}).1
      = some (.str "route_not_found") ∧
    respErrorMessage (process_anthropic_messages c1Cfg "tok" c1Body c1Outcome cEnv {}).1
      = some (.str "No route for anthropic model: model-a") ∧
    hasEvent (process_anthropic_messages c1Cfg "tok" c1Body c1Outcome cEnv {}).2.store
      "route_not_found" = true ∧
    queryStems (process_anthropic_messages c1Cfg "tok" c1Body c1Outcome cEnv {}).2.store
      = [] := by
  decide

def c2Route : LLMProxyRoute :=
  { name := "alias"
    downstream_provider := "anthropic"
    downstream_model := "backing"
    upstream_provider := "anthropic"
    upstream_base_url := "http://up"
    upstream_model := "up-m"
    upstream_api_key := "k" }

def c2Cfg : LLMProxyRoutingConfig := { routes := [c2Route] }

def c2Spec : SpecRoute := { name := "alias", requestModel := "backing" }

/-- C2: the claim states the §3 lookup rule (first by `name`, then by
`requestModel`, then wildcard on either key).  The code diverges twice.
First, `LLMProxyRoutingConfig.match` (settings.py:109-125) keys routes by
`(downstream_provider, downstream_model)` and never consults `name`: for
a table whose single route has `name = "alias"` and model key
`"backing"`, the spec rule resolves `"alias"` (tier 1) but `match`
resolves only `"backing"`.  Second, as called by the runtime
(one argument at llm_proxy.py:904 against a two-argument signature),
`match` raises `TypeError` and `_select_route` yields `route_not_found`
for every request. -/
theorem C2_lookup_rule_divergence :
    specRouteMatch [c2Spec] "alias" = some c2Spec ∧
    c2Cfg.matchRoute "anthropic" "alias" = none ∧
    c2Cfg.matchRoute "anthropic" "backing" = some c2Route ∧
    specRouteMatch [c2Spec] "backing" = some c2Spec ∧
    (select_route c2Cfg "tok" "alias" cEnv {}).1 = none ∧
    hasEvent (select_route c2Cfg "tok" "alias" cEnv {}).2.store "route_not_found"
      = true := by
  decide

/-! ## Store-effect lemmas -/

theorem allocStamp_files (token base : String) (st : StoreState) :
    (allocStamp token base st).2.files = st.files := by
  simp only [allocStamp]
  split <;> rfl

theorem queryStems_writeQuery (token base now : String) (p : Json) (st : StoreState) :
    queryStems (writeQuery token base now p st).2
      = (writeQuery token base now p st).1 :: queryStems st := by
  simp [writeQuery, queryStems, isQueryEntry, allocStamp_files]

theorem answerStems_writeQuery (token base now : String) (p : Json) (st : StoreState) :
    answerStems (writeQuery token base now p st).2 = answerStems st := by
  simp [writeQuery, answerStems, isAnswerEntry, allocStamp_files]

theorem queryStems_writeAnswer (token stamp now : String) (p : Json) (st : StoreState) :
    queryStems (writeAnswer token stamp now p st) = queryStems st := by
  simp [writeAnswer, queryStems, isQueryEntry]

theorem answerStems_writeAnswer (token stamp now : String) (p : Json) (st : StoreState) :
    answerStems (writeAnswer token stamp now p st) = stamp :: answerStems st := by
  simp [writeAnswer, answerStems, isAnswerEntry]

theorem queryStems_storeAppend (token e now : String) (p : Json) (st : StoreState) :
    queryStems (storeAppend token e now p st) = queryStems st := by
  simp [storeAppend, queryStems, isQueryEntry]

theorem answerStems_storeAppend (token e now : String) (p : Json) (st : StoreState) :
    answerStems (storeAppend token e now p st) = answerStems st := by
  simp [storeAppend, answerStems, isAnswerEntry]

theorem queryStems_recordEvent (token e : String) (p : Json) (env : ReqEnv)
    (st : RuntimeState) :
    queryStems (recordEvent token e p env st).store = queryStems st.store := by
  simp [recordEvent, queryStems_storeAppend]

theorem answerStems_recordEvent (token e : String) (p : Json) (env : ReqEnv)
    (st : RuntimeState) :
    answerStems (recordEvent token e p env st).store = answerStems st.store := by
  simp [recordEvent, answerStems_storeAppend]

theorem queryStems_logUpstreamQuery (token : String) (route : LLMProxyRoute)
    (d u : String) (hs : List (String × String)) (p : Json) (env : ReqEnv)
    (st : RuntimeState) :
    queryStems (logUpstreamQuery token route d u hs p env st).2.store
      = (logUpstreamQuery token route d u hs p env st).1 :: queryStems st.store := by
  simp [logUpstreamQuery, queryStems_writeQuery]

theorem answerStems_logUpstreamQuery (token : String) (route : LLMProxyRoute)
    (d u : String) (hs : List (String × String)) (p : Json) (env : ReqEnv)
    (st : RuntimeState) :
    answerStems (logUpstreamQuery token route d u hs p env st).2.store
      = answerStems st.store := by
  simp [logUpstreamQuery, answerStems_writeQuery]

theorem queryStems_logUpstreamAnswer (token stamp : String) (route : LLMProxyRoute)
    (d : String) (r : UpstreamHTTPResult) (uj dp : Option Json) (env : ReqEnv)
    (st : RuntimeState) :
    queryStems (logUpstreamAnswer token stamp route d r uj dp env st).store
      = queryStems st.store := by
  unfold logUpstreamAnswer
  simp [queryStems_writeAnswer]

theorem answerStems_logUpstreamAnswer (token stamp : String) (route : LLMProxyRoute)
    (d : String) (r : UpstreamHTTPResult) (uj dp : Option Json) (env : ReqEnv)
    (st : RuntimeState) :
    answerStems (logUpstreamAnswer token stamp route d r uj dp env st).store
      = stamp :: answerStems st.store := by
  unfold logUpstreamAnswer
  simp [answerStems_writeAnswer]

theorem store_rememberReasoning (token : String) (resp : Json) (st : RuntimeState) :
    (rememberReasoning token resp st).store = st.store := by
  unfold rememberReasoning
  split
  · rfl
  · simp [setReasoningCache]
    split <;> rfl

/-! ## C3: network-error surface -/

def c3Route : LLMProxyRoute :=
  { name := "r"
    downstream_provider := "anthropic"
    downstream_model := "m"
    upstream_provider := "openai"
    upstream_base_url := "http://up/v1"
    upstream_model := "gpt-x"
    upstream_api_key := "sk"
    timeout_seconds := 1 }

def c3Body : Json :=
  .obj [("model", .str "m"),
        ("messages", .arr [.obj [("role", .str "user"), ("content", .str "hi")]])]

/-- C3 counterexample: the claim says a network failure (DNS, connect,
timeout) surfaces to the downstream client as a 502 whose error body has
type `network_error`.  On the cited Anthropic→OpenAI path the synthesized
502 `network_error` result of `_post_json` parses as JSON and then falls
into the `status_code >= 400` branch (llm_proxy.py:1092-1114), which
re-wraps it as `upstream_error`: the downstream body's `error.type` is
`"upstream_error"`, not `"network_error"`. -/
theorem C3_network_error_type_counterexample :
    (process_anthropic_to_openai "tok" c3Route c3Body (.netErr "timed out") cEnv
        {}).1.status_code = 502 ∧
    respErrorType (process_anthropic_to_openai "tok" c3Route c3Body
        (.netErr "timed out") cEnv {}).1 = some (.str "upstream_error") ∧
    respErrorType (process_anthropic_to_openai "tok" c3Route c3Body
        (.netErr "timed out") cEnv {}).1 ≠ some (.str "network_error") := by
  decide

/-- C3 (amended): when the upstream call fails with a network error the
downstream client receives HTTP 502 and both the query and the answer
trajectory file are still written under one stem; but only the
OpenAI-downstream passthrough path surfaces `error.type == "network_error"`
(the synthesized body passes through verbatim), while the Anthropic
passthrough, Anthropic→OpenAI and OpenAI→Anthropic paths wrap the
synthesized `network_error` body in a 502 `upstream_error` whose
`error.message` is that body's JSON serialization. -/
theorem C3_network_error_amended (token : String) (route : LLMProxyRoute)
    (body : Json) (msg : String) (env : ReqEnv) (st : RuntimeState) :
    ((process_anthropic_to_openai token route body (.netErr msg) env st).1.status_code
        = 502
      ∧ respErrorType
          (process_anthropic_to_openai token route body (.netErr msg) env st).1
          = some (.str "upstream_error")
      ∧ respErrorMessage
          (process_anthropic_to_openai token route body (.netErr msg) env st).1
          = some (.str (Json.dumps (networkErrorPayload msg)))
      ∧ ∃ stem,
          queryStems
              (process_anthropic_to_openai token route body (.netErr msg) env st).2.store
            = stem :: queryStems st.store ∧
          answerStems
              (process_anthropic_to_openai token route body (.netErr msg) env st).2.store
            = stem :: answerStems st.store)
    ∧ ((process_anthropic_passthrough token route body (.netErr msg) env st).1.status_code
        = 502
      ∧ respErrorType
          (process_anthropic_passthrough token route body (.netErr msg) env st).1
          = some (.str "upstream_error")
      ∧ respErrorMessage
          (process_anthropic_passthrough token route body (.netErr msg) env st).1
          = some (.str (Json.dumps (networkErrorPayload msg)))
      ∧ ∃ stem,
          queryStems
              (process_anthropic_passthrough token route body (.netErr msg) env st).2.store
            = stem :: queryStems st.store ∧
          answerStems
              (process_anthropic_passthrough token route body (.netErr msg) env st).2.store
            = stem :: answerStems st.store)
    ∧ ((process_openai_passthrough token route body (.netErr msg) env st).1.status_code
        = 502
      ∧ (process_openai_passthrough token route body (.netErr msg) env st).1.payload
          = .js (networkErrorPayload msg)
      ∧ respErrorType
          (process_openai_passthrough token route body (.netErr msg) env st).1
          = some (.str "network_error")
      ∧ ∃ stem,
          queryStems
              (process_openai_passthrough token route body (.netErr msg) env st).2.store
            = stem :: queryStems st.store ∧
          answerStems
              (process_openai_passthrough token route body (.netErr msg) env st).2.store
            = stem :: answerStems st.store)
    ∧ ((process_openai_to_anthropic token route body (.netErr msg) env st
          "req-model").1.status_code = 502
      ∧ respErrorType
          (process_openai_to_anthropic token route body (.netErr msg) env st
            "req-model").1 = some (.str "upstream_error")
      ∧ ∃ stem,
          queryStems
              (process_openai_to_anthropic token route body (.netErr msg) env st
                "req-model").2.store
            = stem :: queryStems st.store ∧
          answerStems
              (process_openai_to_anthropic token route body (.netErr msg) env st
                "req-model").2.store
            = stem :: answerStems st.store) := by
  refine ⟨⟨rfl, rfl, rfl, ?_⟩, ⟨rfl, rfl, rfl, ?_⟩, ⟨rfl, rfl, rfl, ?_⟩,
    ⟨rfl, rfl, ?_⟩⟩
  · simp only [process_anthropic_to_openai, post_json, parse_json_body,
      networkErrorPayload, Json.isObj, ge_iff_le, Nat.reduceLeDiff, if_true,
      reduceIte, queryStems_logUpstreamAnswer, queryStems_recordEvent,
      queryStems_logUpstreamQuery, answerStems_logUpstreamAnswer,
      answerStems_recordEvent, answerStems_logUpstreamQuery]
    exact ⟨_, rfl, rfl⟩
  · simp only [process_anthropic_passthrough, post_json, parse_json_body,
      networkErrorPayload, Json.isObj, ge_iff_le, Nat.reduceLeDiff, if_true,
      reduceIte, queryStems_logUpstreamAnswer, queryStems_recordEvent,
      queryStems_logUpstreamQuery, answerStems_logUpstreamAnswer,
      answerStems_recordEvent, answerStems_logUpstreamQuery]
    exact ⟨_, rfl, rfl⟩
  · simp only [process_openai_passthrough, post_json, parse_json_body,
      networkErrorPayload, Json.isObj, reduceIte, store_rememberReasoning,
      queryStems_logUpstreamAnswer, queryStems_recordEvent,
      queryStems_logUpstreamQuery, answerStems_logUpstreamAnswer,
      answerStems_recordEvent, answerStems_logUpstreamQuery]
    exact ⟨_, rfl, rfl⟩
  · simp only [process_openai_to_anthropic, post_json, parse_json_body,
      networkErrorPayload, Json.isObj, ge_iff_le, Nat.reduceLeDiff, if_true,
      reduceIte, queryStems_logUpstreamAnswer, queryStems_recordEvent,
      queryStems_logUpstreamQuery, answerStems_logUpstreamAnswer,
      answerStems_recordEvent, answerStems_logUpstreamQuery]
    exact ⟨_, rfl, rfl⟩

/-! ## C4: query/answer pairing -/

theorem queryStems_rememberReasoning (token : String) (resp : Json)
    (st : RuntimeState) :
    queryStems (rememberReasoning token resp st).store = queryStems st.store := by
  rw [store_rememberReasoning]

theorem answerStems_rememberReasoning (token : String) (resp : Json)
    (st : RuntimeState) :
    answerStems (rememberReasoning token resp st).store = answerStems st.store := by
  rw [store_rememberReasoning]

/-- C4 counterexample: a request that reaches
`ProxyRuntime.process_anthropic_messages` with a missing `model` is
rejected with 400 `bad_request` and writes no `query` and no `answer`
file, contradicting "exactly one trajectory query file and one answer
file are written ... even on failure" for every request that reaches the
Runtime. -/
theorem C4_exactly_one_counterexample :
    (process_anthropic_messages c1Cfg "tok" (.obj []) c1Outcome cEnv {}).1.status_code
      = 400 ∧
    respErrorType (process_anthropic_messages c1Cfg "tok" (.obj []) c1Outcome cEnv
      {}).1 = some (.str "bad_request") ∧
    queryStems (process_anthropic_messages c1Cfg "tok" (.obj []) c1Outcome cEnv
      {}).2.store = [] ∧
    answerStems (process_anthropic_messages c1Cfg "tok" (.obj []) c1Outcome cEnv
      {}).2.store = [] := by
  decide

/-- C4 (amended): every request that reaches an upstream dispatch path
(route selected) writes exactly one `query` and one `answer` file under
the same stem, whatever the upstream outcome; requests rejected before
dispatch (`bad_request`, `route_not_found`) write neither; hence per
session the query and answer stem lists stay equal. -/
theorem C4_query_answer_pairing (token : String) (route : LLMProxyRoute)
    (cfg : LLMProxyRoutingConfig) (body : Json) (outcome : NetOutcome)
    (env : ReqEnv) (st : RuntimeState) :
    (∃ stem,
        queryStems (process_anthropic_passthrough token route body outcome env
            st).2.store = stem :: queryStems st.store ∧
        answerStems (process_anthropic_passthrough token route body outcome env
            st).2.store = stem :: answerStems st.store)
    ∧ (∃ stem,
        queryStems (process_anthropic_to_openai token route body outcome env
            st).2.store = stem :: queryStems st.store ∧
        answerStems (process_anthropic_to_openai token route body outcome env
            st).2.store = stem :: answerStems st.store)
    ∧ (∃ stem,
        queryStems (process_openai_passthrough token route body outcome env
            st).2.store = stem :: queryStems st.store ∧
        answerStems (process_openai_passthrough token route body outcome env
            st).2.store = stem :: answerStems st.store)
    ∧ (∃ stem,
        queryStems (process_openai_to_anthropic token route body outcome env st
            "rm").2.store = stem :: queryStems st.store ∧
        answerStems (process_openai_to_anthropic token route body outcome env st
            "rm").2.store = stem :: answerStems st.store)
    ∧ (queryStems (process_anthropic_messages cfg token body outcome env
          st).2.store = queryStems st.store ∧
       answerStems (process_anthropic_messages cfg token body outcome env
          st).2.store = answerStems st.store)
    ∧ (queryStems (process_openai_chat_completions cfg token body outcome env
          st).2.store = queryStems st.store ∧
       answerStems (process_openai_chat_completions cfg token body outcome env
          st).2.store = answerStems st.store) := by
  refine ⟨?_, ?_, ?_, ?_, ?_, ?_⟩
  · unfold process_anthropic_passthrough
    dsimp only
    repeat' split
    all_goals try simp only [queryStems_logUpstreamAnswer, queryStems_recordEvent,
      queryStems_logUpstreamQuery, queryStems_rememberReasoning,
      answerStems_logUpstreamAnswer, answerStems_recordEvent,
      answerStems_logUpstreamQuery, answerStems_rememberReasoning]
    all_goals first
      | exact ⟨_, rfl, rfl⟩
      | exact ⟨_, trivial, trivial⟩
  · unfold process_anthropic_to_openai
    dsimp only
    repeat' split
    all_goals try simp only [queryStems_logUpstreamAnswer, queryStems_recordEvent,
      queryStems_logUpstreamQuery, queryStems_rememberReasoning,
      answerStems_logUpstreamAnswer, answerStems_recordEvent,
      answerStems_logUpstreamQuery, answerStems_rememberReasoning]
    all_goals first
      | exact ⟨_, rfl, rfl⟩
      | exact ⟨_, trivial, trivial⟩
  · unfold process_openai_passthrough
    dsimp only
    repeat' split
    all_goals try simp only [queryStems_logUpstreamAnswer, queryStems_recordEvent,
      queryStems_logUpstreamQuery, queryStems_rememberReasoning,
      answerStems_logUpstreamAnswer, answerStems_recordEvent,
      answerStems_logUpstreamQuery, answerStems_rememberReasoning]
    all_goals first
      | exact ⟨_, rfl, rfl⟩
      | exact ⟨_, trivial, trivial⟩
  · unfold process_openai_to_anthropic
    dsimp only
    repeat' split
    all_goals try simp only [queryStems_logUpstreamAnswer, queryStems_recordEvent,
      queryStems_logUpstreamQuery, queryStems_rememberReasoning,
      answerStems_logUpstreamAnswer, answerStems_recordEvent,
      answerStems_logUpstreamQuery, answerStems_rememberReasoning]
    all_goals first
      | exact ⟨_, rfl, rfl⟩
      | exact ⟨_, trivial, trivial⟩
  · unfold process_anthropic_messages
    simp only [select_route]
    repeat' split
    all_goals try simp only [select_route, queryStems_recordEvent,
      answerStems_recordEvent]
    all_goals first
      | exact ⟨rfl, rfl⟩
      | exact ⟨trivial, trivial⟩
  · unfold process_openai_chat_completions
    simp only [select_route]
    repeat' split
    all_goals try simp only [select_route, queryStems_recordEvent,
      answerStems_recordEvent]
    all_goals first
      | exact ⟨rfl, rfl⟩
      | exact ⟨trivial, trivial⟩

/-! ## C10: OpenAI→Anthropic messages have non-empty content -/

/-- Shape of one translated message: a role/content object whose content
is a non-empty block list. -/
def nonEmptyContentMsg (m : Json) : Prop :=
  ∃ role blocks, m = .obj [("role", .str role), ("content", .arr blocks)] ∧
    blocks ≠ []

theorem o2aMsg_shape (g : Supply) (item : Json) (ctr : Nat) :
    ∀ m ∈ (o2aMsg g item ctr).1.1, nonEmptyContentMsg m := by
  intro m hm
  unfold o2aMsg at hm
  split at hm
  case h_2 => simp at hm
  case h_1 =>
    dsimp only at hm
    split_ifs at hm
    all_goals try (repeat' split at hm)
    all_goals try simp_all [nonEmptyContentMsg]
    all_goals exact ⟨_, _, ⟨rfl, rfl⟩, by simp_all⟩

theorem o2aGo_shape (g : Supply) (items : List Json) :
    ∀ ctr, ∀ m ∈ (o2aGo g items ctr).1.1, nonEmptyContentMsg m := by
  induction items with
  | nil => intro ctr m hm; simp [o2aGo] at hm
  | cons item rest ih =>
      intro ctr m hm
      unfold o2aGo at hm
      dsimp only at hm
      rw [List.mem_append] at hm
      rcases hm with hm | hm
      · exact o2aMsg_shape g item ctr m hm
      · exact ih _ m hm

/-- C10: every Anthropic message produced by the OpenAI→Anthropic request
translation is a role/content object whose content list is non-empty:
user messages with empty serialized content, assistant messages yielding
no text or tool_use blocks, and tool messages without a `tool_call_id`
are omitted rather than emitted with empty content. -/
theorem C10_o2a_messages_nonempty_content (g : Supply) (raw : Json) (ctr : Nat) :
    ∀ m ∈ (openai_messages_to_anthropic g raw ctr).1.1, nonEmptyContentMsg m := by
  intro m hm
  unfold openai_messages_to_anthropic at hm
  split at hm
  · exact o2aGo_shape g _ _ m (by simpa using hm)
  · simp at hm

/-- C10 witness: concrete instantiation of the theorem; the empty-content
user message, the id-less tool message and the empty assistant message of
the input are dropped, and the surviving message has non-empty content. -/
theorem C10_o2a_messages_nonempty_content_witness :
    (Json.obj [("role", .str "user"),
               ("content", .arr [.obj [("type", .str "text"), ("text", .str "hi")]])])
      ∈ (openai_messages_to_anthropic cSupply
          (.arr [.obj [("role", .str "user"), ("content", .str "hi")],
                 .obj [("role", .str "user"), ("content", .str "")],
                 .obj [("role", .str "tool"), ("content", .str "x")],
                 .obj [("role", .str "assistant"), ("content", .str "")]]) 0).1.1 ∧
    nonEmptyContentMsg
      (Json.obj [("role", .str "user"),
                 ("content", .arr [.obj [("type", .str "text"), ("text", .str "hi")]])]) :=
  ⟨by decide,
   C10_o2a_messages_nonempty_content cSupply
     (.arr [.obj [("role", .str "user"), ("content", .str "hi")],
            .obj [("role", .str "user"), ("content", .str "")],
            .obj [("role", .str "tool"), ("content", .str "x")],
            .obj [("role", .str "assistant"), ("content", .str "")]]) 0
     _ (by decide)⟩

/-! ## C7: Anthropic assistant message translation -/

/-- The text parts an assistant message's blocks contribute (the claim's
"text blocks", i.e. blocks of type `text` whose `text` field is a
string). -/
def assistantTextParts (blocks : List Json) : List String :=
  blocks.filterMap fun b =>
    if (pyStr (b.getD "type" (.str ""))).pyStrip = "text" then
      match b.getField "text" with
      | some (.str t) => some t
      | _ => none
    else none

/-- The `tool_calls` entry a `tool_use` block contributes (the claim's
one-entry-per-block rule, restricted to blocks with a non-empty name, and
written for blocks whose id is present). -/
def assistantToolEntry (b : Json) : Option Json :=
  if (pyStr (b.getD "type" (.str ""))).pyStrip = "tool_use" then
    let n := (pyStr (b.getD "name" (.str ""))).pyStrip
    if n = "" then none
    else
      let i := (pyStr (b.getD "id" (.str ""))).pyStrip
      let raw := b.getD "input" (.obj [])
      let w := if raw.isContainer then raw else .obj [("value", raw)]
      some (.obj [("id", .str i), ("type", .str "function"),
                  ("function", .obj [("name", .str n),
                                     ("arguments", .str w.dumps)])])
  else none

/-- The non-container wrap (`{"value": x}`) applied by the translators. -/
def wrapInput (input : Json) : Json :=
  if input.isContainer then input else .obj [("value", input)]

theorem a2oAssistantBlocks_chars (g : Supply) (blocks : List Json) :
    ∀ ctr : Nat,
      (∀ b ∈ blocks, (pyStr (b.getD "type" (.str ""))).pyStrip = "tool_use" →
        (pyStr (b.getD "id" (.str ""))).pyStrip ≠ "") →
      a2oAssistantBlocks g blocks ctr
        = (assistantTextParts blocks, blocks.filterMap assistantToolEntry, ctr) := by
  induction blocks with
  | nil => intro ctr h; simp [a2oAssistantBlocks, assistantTextParts]
  | cons b rest ih =>
      intro ctr h
      have hb := h b (List.mem_cons_self b rest)
      have hrest := ih ctr fun x hx hx2 => h x (List.mem_cons_of_mem b hx) hx2
      unfold a2oAssistantBlocks
      dsimp only
      by_cases ht : (pyStr (b.getD "type" (.str ""))).pyStrip = "text"
      · rw [if_pos ht]
        cases hf : b.getField "text" with
        | none => simp [hrest, assistantTextParts, assistantToolEntry, ht, hf]
        | some v =>
            cases v <;>
              simp [hrest, assistantTextParts, assistantToolEntry, ht, hf]
      · rw [if_neg ht]
        by_cases htu : (pyStr (b.getD "type" (.str ""))).pyStrip = "tool_use"
        · rw [if_neg (by simp [htu])]
          by_cases hn : (pyStr (b.getD "name" (.str ""))).pyStrip = ""
          · simp [hn, hrest, assistantTextParts, assistantToolEntry, ht, htu]
          · have hid := hb htu
            simp [hn, hid, hrest, assistantTextParts, assistantToolEntry, ht, htu]
        · rw [if_pos (by simp [htu])]
          simp [hrest, assistantTextParts, assistantToolEntry, ht, htu]

/-- C7 counterexample: an Anthropic assistant message whose content has
no text block and no usable `tool_use` block yields no OpenAI message at
all (llm_proxy.py:236 appends only when the joined content or the tool
calls are non-empty), refuting "every Anthropic assistant message yields
exactly one OpenAI assistant message". -/
theorem C7_empty_assistant_counterexample :
    anthropic_messages_to_openai cSupply
        (.obj [("messages",
                .arr [.obj [("role", .str "assistant"), ("content", .arr [])]])]) 0
      = ([], 0) := by
  decide

/-- C7 (amended): an Anthropic assistant message yields exactly one
OpenAI assistant message when its joined text content is non-empty or
some `tool_use` block has a non-empty name — and no message otherwise.
The emitted message's `content` is the text blocks joined by `"\n"`
(empty string when there are none); it carries one `tool_calls` entry per
`tool_use` block with a non-empty name, with the block's (stripped) id
and `function.arguments` the JSON serialization of the block's input
(non-container inputs wrapped as `{value: x}`).  The first conjunct
covers blocks whose `tool_use` ids are present (object blocks); the
second shows a `tool_use` block with no id draws a fresh
`call_<uuid4-hex-12>` id from the supply and advances it. -/
theorem C7_assistant_translation (g : Supply) (blocks : List Json) (ctr : Nat)
    (hobj : ∀ b ∈ blocks, b.isObj = true)
    (hids : ∀ b ∈ blocks, (pyStr (b.getD "type" (.str ""))).pyStrip = "tool_use" →
      (pyStr (b.getD "id" (.str ""))).pyStrip ≠ "") :
    (anthropic_messages_to_openai g
        (.obj [("messages",
                .arr [.obj [("role", .str "assistant"),
                            ("content", .arr blocks)]])]) ctr
      = (let joined :=
           if (assistantTextParts blocks).isEmpty then ""
           else String.intercalate "\n" (assistantTextParts blocks)
         let entries := blocks.filterMap assistantToolEntry
         (if joined ≠ "" ∨ ¬ entries.isEmpty then
            [.obj ([("role", Json.str "assistant"), ("content", Json.str joined)]
              ++ (if entries.isEmpty then [] else [("tool_calls", Json.arr entries)]))]
          else [], ctr)))
    ∧ (∀ (name input : Json) (c : Nat),
        (pyStr name).pyStrip ≠ "" →
        a2oAssistantBlocks g
            [.obj [("type", .str "tool_use"), ("name", name), ("input", input)]] c
          = ([],
             [.obj [("id", .str ("call_" ++ g c)), ("type", .str "function"),
                    ("function",
                     .obj [("name", .str (pyStr name).pyStrip),
                           ("arguments", .str (wrapInput input).dumps)])]],
             c + 1)) := by
  have hfil : blocks.filter Json.isObj = blocks :=
    List.filter_eq_self.mpr hobj
  have hchars := a2oAssistantBlocks_chars g blocks ctr hids
  constructor
  · have hrole : (pyStr ((Json.obj [("role", Json.str "assistant"),
        ("content", Json.arr blocks)] : Json).getD "role" (.str ""))).pyStrip
        = "assistant" := rfl
    have hblocks : normalize_anthropic_content_blocks
        ((Json.obj [("role", Json.str "assistant"),
          ("content", Json.arr blocks)] : Json).getD "content" .null)
        = blocks.filter Json.isObj := rfl
    have hmsgs : (Json.obj [("messages", Json.arr [Json.obj [("role",
        Json.str "assistant"), ("content", Json.arr blocks)]])] : Json).getD
        "messages" (.arr [])
        = Json.arr [Json.obj [("role", Json.str "assistant"),
            ("content", Json.arr blocks)]] := rfl
    have hsysf : (Json.obj [("messages", Json.arr [Json.obj [("role",
        Json.str "assistant"), ("content", Json.arr blocks)]])] : Json).getD
        "system" Json.null = Json.null := rfl
    unfold anthropic_messages_to_openai
    dsimp only
    rw [hmsgs, hsysf]
    unfold a2oGo a2oGo a2oMsg
    dsimp only
    rw [hrole, hblocks, hfil, hchars]
    dsimp only
    split_ifs <;> simp_all [pyTruthy, extract_text_content]

  · intro name input c hn
    have hbt : (pyStr ((Json.obj [("type", Json.str "tool_use"), ("name", name),
        ("input", input)] : Json).getD "type" (.str ""))).pyStrip = "tool_use" := rfl
    have hid : (pyStr ((Json.obj [("type", Json.str "tool_use"), ("name", name),
        ("input", input)] : Json).getD "id" (.str ""))).pyStrip = "" := rfl
    have hname : (Json.obj [("type", Json.str "tool_use"), ("name", name),
        ("input", input)] : Json).getD "name" (.str "") = name := rfl
    have hinput : (Json.obj [("type", Json.str "tool_use"), ("name", name),
        ("input", input)] : Json).getD "input" (.obj []) = input := rfl
    unfold a2oAssistantBlocks
    dsimp only
    rw [hbt, hid, hname, hinput]
    rw [if_neg hn]
    simp [a2oAssistantBlocks, wrapInput]

def c7Blocks : List Json :=
  [.obj [("type", .str "text"), ("text", .str "hello")],
   .obj [("type", .str "tool_use"), ("id", .str "toolu_1"), ("name", .str "run"),
         ("input", .obj [("cmd", .str "ls")])]]

/-- C7 witness: the amended theorem applied at a concrete assistant
message with one text block and one `tool_use` block. -/
theorem C7_assistant_translation_witness :
    (∀ b ∈ c7Blocks, b.isObj = true) ∧
    (∀ b ∈ c7Blocks, (pyStr (b.getD "type" (.str ""))).pyStrip = "tool_use" →
      (pyStr (b.getD "id" (.str ""))).pyStrip ≠ "") ∧
    anthropic_messages_to_openai cSupply
        (.obj [("messages", .arr [.obj [("role", .str "assistant"),
          ("content", .arr c7Blocks)]])]) 0
      = ([.obj [("role", .str "assistant"), ("content", .str "hello"),
            ("tool_calls",
             .arr [.obj [("id", .str "toolu_1"), ("type", .str "function"),
               ("function", .obj [("name", .str "run"),
                 ("arguments", .str "\x7b\"cmd\": \"ls\"\x7d")])]])]], 0) :=
  ⟨by decide, by decide, by
    have h := (C7_assistant_translation cSupply c7Blocks 0 (by decide) (by decide)).1
    exact h.trans (by decide)⟩

/-! ## C6: reasoning cache -/

theorem cacheLookup_cacheSet_self (c : ReasoningCache) (k : String) (v : String) :
    cacheLookup (cacheSet c k v) k = some v := by
  induction c with
  | nil => simp [cacheSet, cacheLookup]
  | cons p rest ih =>
      by_cases h : p.1 = k
      · simp [cacheSet, cacheLookup, h]
      · simp [cacheSet, cacheLookup, h, ih]

theorem cacheLookup_cacheSet_ne (c : ReasoningCache) (k k' v : String)
    (h : k' ≠ k) : cacheLookup (cacheSet c k v) k' = cacheLookup c k' := by
  induction c with
  | nil => simp [cacheSet, cacheLookup, Ne.symm h]
  | cons p rest ih =>
      by_cases h2 : p.1 = k
      · simp [cacheSet, cacheLookup, h2, Ne.symm h]
      · simp [cacheSet, cacheLookup, h2, ih]

theorem cacheSetMany_lookup_not_mem (ids : List String) :
    ∀ (c : ReasoningCache) (v : String) (k : String), k ∉ ids →
      cacheLookup (cacheSetMany c ids v) k = cacheLookup c k := by
  induction ids with
  | nil => intro c v k _; rfl
  | cons i rest ih =>
      intro c v k hk
      rw [List.mem_cons] at hk
      push_neg at hk
      unfold cacheSetMany
      rw [ih _ v k hk.2, cacheLookup_cacheSet_ne c i k v hk.1]

theorem cacheSetMany_lookup_mem (ids : List String) :
    ∀ (c : ReasoningCache) (v : String) (k : String), k ∈ ids →
      cacheLookup (cacheSetMany c ids v) k = some v := by
  induction ids with
  | nil => intro c v k hk; simp at hk
  | cons i rest ih =>
      intro c v k hk
      unfold cacheSetMany
      by_cases hmem : k ∈ rest
      · exact ih _ v k hmem
      · have hk2 : k = i := by
          rcases List.mem_cons.mp hk with h | h
          · exact h
          · exact absurd h hmem
        rw [cacheSetMany_lookup_not_mem rest _ v k hmem, hk2,
          cacheLookup_cacheSet_self]

theorem cacheSet_length (c : ReasoningCache) (k v : String) :
    (cacheSet c k v).length ≤ c.length + 1 := by
  induction c with
  | nil => simp [cacheSet]
  | cons p rest ih =>
      by_cases h : p.1 = k
      · simp [cacheSet, h]
      · simpa [cacheSet, h] using Nat.succ_le_succ ih

theorem cacheSetMany_length (ids : List String) :
    ∀ c : ReasoningCache, ∀ v : String,
      (cacheSetMany c ids v).length ≤ c.length + ids.length := by
  induction ids with
  | nil => intro c v; simp [cacheSetMany]
  | cons i rest ih =>
      intro c v
      unfold cacheSetMany
      calc (cacheSetMany (cacheSet c i v) rest v).length
          ≤ (cacheSet c i v).length + rest.length := ih _ v
        _ ≤ c.length + 1 + rest.length :=
            Nat.add_le_add_right (cacheSet_length c i v) _
        _ = c.length + (i :: rest).length := by simp [List.length_cons]; omega

def c6BadResp : Json :=
  .obj [("choices", .arr [.obj [("message",
    .obj [("reasoning_content", .str "R"),
          ("tool_calls", .arr [.obj []])])]])]

/-- C6 counterexample: the claim's parenthetical says a non-empty
`reasoning_content` together with tool calls makes the cache bind the
text to `__last__` (and to every tool-call id).  When the tool calls are
present but none carries a non-empty id,
`_remember_reasoning_for_tool_calls` returns before touching the cache
(llm_proxy.py:566-567): nothing is bound, not even `__last__`. -/
theorem C6_ids_required_counterexample :
    reasoningExtract c6BadResp = none ∧
    rememberReasoning "tok" c6BadResp {} = ({} : RuntimeState) ∧
    cacheLookup (reasoningFor (rememberReasoning "tok" c6BadResp {}) "tok")
      "__last__" = none := by
  decide

/-- C6 (amended): if an upstream OpenAI response carries a non-blank
`choices[0].message.reasoning_content` together with at least one
tool call with a non-empty id (the successful guard of
`_remember_reasoning_for_tool_calls`, embodied by `reasoningExtract`),
and the cache does not overflow, then after `remember` the cache binds
the reasoning text to every such id and to `__last__`; and `inject` then
fills every assistant message that lacks `reasoning_content` and carries
tool calls — taking the value of the first of its tool-call ids found in
the cache, else the `__last__` fallback — so a message all of whose
cache-hitting ids are bound to this text receives exactly this text. -/
theorem C6_reasoning_replay (resp : Json) (rc : String) (ids : List String)
    (cache : ReasoningCache)
    (hx : reasoningExtract resp = some (rc, ids))
    (hrc : rc.pyStrip ≠ "")
    (hsize : cache.length + ids.length ≤ 1023) :
    (cacheLookup (rememberIntoCache resp cache) "__last__" = some rc)
    ∧ (∀ id ∈ ids, cacheLookup (rememberIntoCache resp cache) id = some rc)
    ∧ (∀ msgs : List Json,
        injectReasoningContent (rememberIntoCache resp cache) msgs
          = msgs.map (injectIntoMessage (rememberIntoCache resp cache)))
    ∧ (∀ (m : Json) (c0 : Json) (cs : List Json),
        (pyStr (m.getD "role" (.str ""))).pyStrip = "assistant" →
        m.hasField "reasoning_content" = false →
        m.getField "tool_calls" = some (.arr (c0 :: cs)) →
        (∀ c ∈ c0 :: cs,
          (pyStr (c.getD "id" (.str ""))).pyStrip ≠ "" →
          cacheLookup (rememberIntoCache resp cache)
              ((pyStr (c.getD "id" (.str ""))).pyStrip) = some rc ∨
          cacheLookup (rememberIntoCache resp cache)
              ((pyStr (c.getD "id" (.str ""))).pyStrip) = none) →
        injectIntoMessage (rememberIntoCache resp cache) m
          = m.setField "reasoning_content" (.str rc)) := by
  have hrc0 : rc ≠ "" := by
    intro h
    exact hrc (by simp [h, String.pyStrip])
  have hc2 : rememberIntoCache resp cache
      = cacheSetMany (cacheSet cache "__last__" rc) ids rc := by
    unfold rememberIntoCache
    rw [hx]
    dsimp only
    rw [if_neg]
    push_neg
    calc (cacheSetMany (cacheSet cache "__last__" rc) ids rc).length
        ≤ (cacheSet cache "__last__" rc).length + ids.length :=
          cacheSetMany_length ids _ rc
      _ ≤ cache.length + 1 + ids.length :=
          Nat.add_le_add_right (cacheSet_length cache "__last__" rc) _
      _ ≤ 1024 := by omega
  have hlast : cacheLookup (rememberIntoCache resp cache) "__last__" = some rc := by
    rw [hc2]
    by_cases h : "__last__" ∈ ids
    · exact cacheSetMany_lookup_mem ids _ rc _ h
    · rw [cacheSetMany_lookup_not_mem ids _ rc _ h, cacheLookup_cacheSet_self]
  have hne : rememberIntoCache resp cache ≠ [] := by
    intro h
    rw [h] at hlast
    simp [cacheLookup] at hlast
  refine ⟨hlast, ?_, ?_, ?_⟩
  · intro id hid
    rw [hc2]
    exact cacheSetMany_lookup_mem ids _ rc _ hid
  · intro msgs
    unfold injectReasoningContent
    rw [if_neg (by simpa [List.isEmpty_iff] using hne)]
  · intro m c0 cs hrole hnorc hcalls hidv
    unfold injectIntoMessage
    have hmobj : ∃ fs, m = .obj fs := by
      cases m with
      | obj fs => exact ⟨fs, rfl⟩
      | null | bool _ | num _ | str _ | arr _ => simp [Json.getField] at hcalls
    obtain ⟨fs, rfl⟩ := hmobj
    dsimp only
    rw [hrole, if_neg (by simp), if_neg (by simp [hnorc] : ¬ (Json.obj fs).hasField
      "reasoning_content" = true), hcalls]
    dsimp only
    have hv1 : ∀ v1 : Option String,
        v1 = ((c0 :: cs).findSome? fun c =>
          (match c with
           | .obj _ =>
               let i := (pyStr (c.getD "id" (.str ""))).pyStrip
               if i ≠ "" then cacheLookup (rememberIntoCache resp cache) i else none
           | _ => none)) →
        v1 = some rc ∨ v1 = none := by
      intro v1 hv
      cases hvv : v1 with
      | none => exact Or.inr rfl
      | some s =>
          left
          rw [hvv] at hv
          obtain ⟨c, hcmem, hcf⟩ := List.exists_of_findSome?_eq_some hv.symm
          have hsplit : (pyStr (c.getD "id" (.str ""))).pyStrip ≠ "" ∧
              cacheLookup (rememberIntoCache resp cache)
                ((pyStr (c.getD "id" (.str ""))).pyStrip) = some s := by
            cases c with
            | obj fs2 =>
                dsimp only at hcf
                by_cases hi : (pyStr ((Json.obj fs2).getD "id" (.str ""))).pyStrip ≠ ""
                · rw [if_pos hi] at hcf
                  exact ⟨hi, hcf⟩
                · rw [if_neg hi] at hcf
                  exact Option.noConfusion hcf
            | null => exact Option.noConfusion hcf
            | bool b => exact Option.noConfusion hcf
            | num n => exact Option.noConfusion hcf
            | str s2 => exact Option.noConfusion hcf
            | arr xs => exact Option.noConfusion hcf
          rcases hidv c hcmem hsplit.1 with h | h
          · rw [hsplit.2] at h
            injection h with h
            rw [h]
          · rw [hsplit.2] at h
            exact Option.noConfusion h
    rcases hv1 _ rfl with h | h
    · rw [h]
      simp [hrc0]
    · rw [h]
      simp [hlast, hrc, hrc0]

def c6Resp : Json :=
  .obj [("choices", .arr [.obj [("message",
    .obj [("reasoning_content", .str "R"),
          ("tool_calls", .arr [.obj [("id", .str "c1")]])])]])]

/-- C6 witness: the amended theorem applied to the spec's scenario 6
(reasoning text `R` bound to tool-call id `c1` and to `__last__`). -/
theorem C6_reasoning_replay_witness :
    reasoningExtract c6Resp = some ("R", ["c1"]) ∧
    ("R" : String).pyStrip ≠ "" ∧
    ([] : ReasoningCache).length + ["c1"].length ≤ 1023 ∧
    cacheLookup (rememberIntoCache c6Resp []) "__last__" = some "R" ∧
    cacheLookup (rememberIntoCache c6Resp []) "c1" = some "R" :=
  ⟨by decide, by decide, by decide,
   (C6_reasoning_replay c6Resp "R" ["c1"] [] (by decide) (by decide) (by decide)).1,
   (C6_reasoning_replay c6Resp "R" ["c1"] [] (by decide) (by decide)
     (by decide)).2.1 "c1" (by decide)⟩

/-! ## C8: synthesized SSE stream -/

/-- The content blocks `_send_sse_message` iterates over. -/
def sseContentOf (payload : Json) : List Json :=
  match payload.getD "content" (.arr []) with
  | .arr bs => bs
  | _ => []

/-- Well-formedness of a content block as produced by
`_anthropic_response_from_openai`: an object of type `text`, or of type
`tool_use` with an `id` field present and a container input. -/
def sseWellFormedBlock (b : Json) : Bool :=
  match b with
  | .obj _ =>
      let bt := (pyStr (b.getD "type" (.str ""))).pyStrip
      if bt = "text" then true
      else if bt = "tool_use" then
        (b.getField "id").isSome && (b.getD "input" (.obj [])).isContainer
      else false
  | _ => false

/-- The claim's per-block event triple: `content_block_start`,
`content_block_delta`, `content_block_stop` at the block's index, with a
`tool_use` start block carrying `input: {}` and the full input JSON sent
as the `input_json_delta` `partial_json`. -/
def sseTripleSpec (index : Nat) (block : Json) : List (String × Json) :=
  if (pyStr (block.getD "type" (.str ""))).pyStrip = "text" then
    [("content_block_start",
      .obj [("type", .str "content_block_start"), ("index", .num index),
            ("content_block", .obj [("type", .str "text"), ("text", .str "")])]),
     ("content_block_delta",
      .obj [("type", .str "content_block_delta"), ("index", .num index),
            ("delta", .obj [("type", .str "text_delta"),
                            ("text", .str (pyStr (block.getD "text" (.str ""))))])]),
     ("content_block_stop",
      .obj [("type", .str "content_block_stop"), ("index", .num index)])]
  else
    [("content_block_start",
      .obj [("type", .str "content_block_start"), ("index", .num index),
            ("content_block",
             .obj [("type", .str "tool_use"),
                   ("id", .str (pyStr (block.getD "id" .null))),
                   ("name", .str (pyStr (block.getD "name" (.str "")))),
                   ("input", .obj [])])]),
     ("content_block_delta",
      .obj [("type", .str "content_block_delta"), ("index", .num index),
            ("delta", .obj [("type", .str "input_json_delta"),
                            ("partial_json",
                             .str (block.getD "input" (.obj [])).dumps)])]),
     ("content_block_stop",
      .obj [("type", .str "content_block_stop"), ("index", .num index)])]

theorem sseBlockEvents_spec (g : Supply) (l : List (Nat × Json)) :
    ∀ ctr, (∀ p ∈ l, sseWellFormedBlock p.2 = true) →
      (sseBlockEvents g l ctr).1 = l.flatMap fun p => sseTripleSpec p.1 p.2 := by
  induction l with
  | nil => intro ctr _; simp [sseBlockEvents]
  | cons p rest ih =>
      intro ctr h
      have hp := h p (List.mem_cons_self p rest)
      have hrest := fun c => ih c fun x hx => h x (List.mem_cons_of_mem p hx)
      obtain ⟨index, block⟩ := p
      cases block with
      | obj fs =>
          simp only [sseWellFormedBlock] at hp
          unfold sseBlockEvents
          dsimp only
          by_cases ht : (pyStr ((Json.obj fs).getD "type" (.str ""))).pyStrip = "text"
          · rw [if_pos ht, List.flatMap_cons, hrest ctr]
            simp [sseTripleSpec, ht]
          · rw [if_neg ht]
            rw [if_neg ht] at hp
            by_cases htu : (pyStr ((Json.obj fs).getD "type" (.str ""))).pyStrip
                = "tool_use"
            · rw [if_pos htu]
              rw [if_pos htu] at hp
              simp only [Bool.and_eq_true] at hp
              obtain ⟨hid, hcont⟩ := hp
              obtain ⟨idv, hidv⟩ := Option.isSome_iff_exists.mp hid
              rw [List.flatMap_cons, hrest (ctr + 1)]
              have hgid : (Json.obj fs).getD "id" Json.null = idv := by
                simp [Json.getD, hidv]
              simp [sseTripleSpec, ht, hgid, hidv, hcont]
            · rw [if_neg htu] at hp
              simp at hp
      | null => simp [sseWellFormedBlock] at hp
      | bool b => simp [sseWellFormedBlock] at hp
      | num n => simp [sseWellFormedBlock] at hp
      | str s => simp [sseWellFormedBlock] at hp
      | arr xs => simp [sseWellFormedBlock] at hp

theorem o2aToolCalls_wf (g : Supply) (calls : List Json) :
    ∀ ctr b, b ∈ (o2aToolCalls g calls ctr).1 → sseWellFormedBlock b = true := by
  induction calls with
  | nil => intro ctr b hb; simp [o2aToolCalls] at hb
  | cons c rest ih =>
      intro ctr b hb
      unfold o2aToolCalls at hb
      dsimp only at hb
      repeat' split at hb
      all_goals first
        | exact ih _ b hb
        | (rcases List.mem_cons.mp hb with h | h
           · subst h; rfl
           · exact ih _ b h)

theorem respTextBlocks_wf (message : Json) :
    ∀ b ∈ respTextBlocks message, sseWellFormedBlock b = true := by
  intro b hb
  unfold respTextBlocks at hb
  repeat' split at hb
  all_goals try simp at hb
  · subst hb
    rfl
  · obtain ⟨a, _, hfa⟩ := hb
    repeat' split at hfa
    all_goals try exact Option.noConfusion hfa
    injection hfa with hfa
    subst hfa
    rfl

theorem respMsgBlocks_wf (g : Supply) (message : Json) (ctr : Nat) :
    ∀ b ∈ (respMsgBlocks g message ctr).1, sseWellFormedBlock b = true := by
  intro b hb
  unfold respMsgBlocks at hb
  split at hb
  · dsimp only at hb
    rcases List.mem_append.mp hb with h | h
    · exact respTextBlocks_wf _ b h
    · revert h
      split
      · intro h; exact o2aToolCalls_wf g _ _ b h
      · intro h; simp at h
  · simp at hb

theorem respContent_wf (g : Supply) (resp : Json) (rm : Option String) (ctr : Nat) :
    ∀ b ∈ sseContentOf (anthropic_response_from_openai g resp rm ctr).1,
      sseWellFormedBlock b = true := by
  have hcontent : sseContentOf (anthropic_response_from_openai g resp rm ctr).1
      = (respChoiceData g (resp.getD "choices" (.arr [])) ctr).1 := rfl
  rw [hcontent]
  intro b hb
  unfold respChoiceData at hb
  repeat' split at hb
  all_goals try simp at hb
  all_goals exact respMsgBlocks_wf g _ _ b hb

/-- The `message_start` event data of `_send_sse_message`
(llm_proxy.py:1378-1397). -/
def sseStartEnvelope (g : Supply) (payload : Json) (ctr : Nat) : Json :=
  .obj [("type", .str "message_start"),
        ("message",
         .obj [("id", match payload.getField "id" with
                      | some v => v
                      | none => .str ("msg_" ++ g ctr)),
               ("type", .str "message"), ("role", .str "assistant"),
               ("content", .arr []), ("model", payload.getD "model" .null),
               ("stop_reason", .null), ("stop_sequence", .null),
               ("usage",
                .obj [("input_tokens",
                       match payload.getD "usage" (.obj []) with
                       | .obj ufs => (jsonLookup ufs "input_tokens").getD (.num 0)
                       | _ => .num 0),
                      ("output_tokens", .num 0)])])]

/-- The `message_delta` event data of `_send_sse_message`
(llm_proxy.py:1482-1490): it carries the payload's `stop_reason`
(defaulting to `end_turn`) and its `output_tokens`. -/
def sseDeltaEnvelope (payload : Json) : Json :=
  .obj [("type", .str "message_delta"),
        ("delta",
         .obj [("stop_reason", payload.getD "stop_reason" (.str "end_turn")),
               ("stop_sequence", .null)]),
        ("usage",
         .obj [("output_tokens",
                .num (if (payload.getD "usage" (.obj [])).isObj then
                        pyInt ((payload.getD "usage" (.obj [])).getD
                          "output_tokens" (.num 0))
                      else 0))])]

theorem sendSseEvents_spec (g : Supply) (payload : Json) (c : Nat)
    (hwf : ∀ b ∈ sseContentOf payload, sseWellFormedBlock b = true) :
    (sendSseEvents g payload c).1 =
      [("message_start", sseStartEnvelope g payload c)]
      ++ (sseContentOf payload).enum.flatMap (fun q => sseTripleSpec q.1 q.2)
      ++ [("message_delta", sseDeltaEnvelope payload),
          ("message_stop", .obj [("type", .str "message_stop")])] := by
  have hwf2 : ∀ q ∈ (sseContentOf payload).enum, sseWellFormedBlock q.2 = true :=
    fun q hq => hwf q.2 (List.snd_mem_of_mem_enum hq)
  unfold sendSseEvents sseStartEnvelope sseDeltaEnvelope
  dsimp only
  rw [show (match payload.getD "content" (.arr []) with
           | .arr bs => bs
           | _ => []) = sseContentOf payload from rfl]
  rw [sseBlockEvents_spec g _ _ hwf2]

/-- C8: when a downstream Anthropic request with `stream: true` is served
from a single non-streaming JSON upstream answer (the `sse_synth`
response mode, produced only by `_process_anthropic_to_openai`,
llm_proxy.py:1139-1143), the synthesized SSE event list is, in order:
`message_start`; for each content block a `content_block_start` /
`content_block_delta` / `content_block_stop` triple at its index, where a
`tool_use` start block carries `input: \x7b\x7d` and the full input JSON
is sent as the `input_json_delta` `partial_json` (see `sseTripleSpec`);
then `message_delta` carrying the payload's `stop_reason`
(`sseDeltaEnvelope`); then `message_stop`. -/
theorem C8_sse_synthesis (token : String) (route : LLMProxyRoute) (body : Json)
    (outcome : NetOutcome) (env : ReqEnv) (st : RuntimeState)
    (h : (process_anthropic_to_openai token route body outcome env st).1.mode
           = "sse_synth") :
    ∃ p, (process_anthropic_to_openai token route body outcome env st).1.payload
           = .js p ∧
      ∀ g c, (sendSseEvents g p c).1 =
        [("message_start", sseStartEnvelope g p c)]
        ++ (sseContentOf p).enum.flatMap (fun q => sseTripleSpec q.1 q.2)
        ++ [("message_delta", sseDeltaEnvelope p),
            ("message_stop", .obj [("type", .str "message_stop")])] := by
  unfold process_anthropic_to_openai at h ⊢
  dsimp only at h ⊢
  cases hp : parse_json_body (post_json outcome) with
  | none =>
      rw [hp] at h
      simp [error_response] at h
  | some uj =>
      rw [hp] at h
      dsimp only at h ⊢
      by_cases h4 : (post_json outcome).status_code ≥ 400
      · rw [if_pos h4] at h
        simp [error_response] at h
      · rw [if_neg h4] at h ⊢
        by_cases hs : body.getField "stream" = some (.bool true)
        · rw [if_pos hs]
          refine ⟨_, rfl, ?_⟩
          intro g c
          exact sendSseEvents_spec g _ c (respContent_wf env.g uj _ _)
        · rw [if_neg hs] at h
          simp at h

/-- Concrete inputs exercising the `sse_synth` branch. -/
def c8route : LLMProxyRoute :=
  { name := "r", downstream_provider := "anthropic", downstream_model := "m",
    upstream_provider := "openai", upstream_base_url := "http://u",
    upstream_model := "um", upstream_api_key := "sek", timeout_seconds := 1 }

def c8body : Json :=
  .obj [("model", .str "m"), ("messages", .arr []), ("stream", .bool true)]

def c8outcome : NetOutcome :=
  .http 200 "application/json"
    (.jsonBody (.obj [("choices",
      .arr [.obj [("message", .obj [("content", .str "hi")]),
                  ("finish_reason", .str "stop")]])]))

def c8env : ReqEnv := { g := fun _ => "0123456789ab" }

/-- C9: secret hygiene.  (a) Masking (llm_proxy.py:616-624): every header
whose lowercased name is `authorization`, `x-api-key` or `api-key` is
serialized as `***` in `_masked_headers` output, which is the only form
in which upstream headers reach a trajectory record
(llm_proxy.py:642).  (b) Non-persistence of the upstream `api_key`,
as a noninterference property: the full observable outcome of every
upstream dispatch path — the downstream response, the trajectory store
(all files written), the reasoning caches and the uuid counter — is
identical for any two values of `route.upstream_api_key`, so no file
under the log directory can contain the key's string value.  (Inbound
`Authorization`/`x-api-key` header values never reach the runtime at
all: the request paths take only the session token, and no record is
built from inbound headers.) -/
theorem C9_secret_hygiene :
    (∀ (headers : List (String × String)) (k v : String), (k, v) ∈ headers →
        (k.pyLower = "authorization" ∨ k.pyLower = "x-api-key" ∨
         k.pyLower = "api-key") →
        (k, "***") ∈ masked_headers headers)
    ∧ (∀ (token : String) (route : LLMProxyRoute) (body : Json)
         (outcome : NetOutcome) (env : ReqEnv) (st : RuntimeState)
         (key1 key2 : String) (rm : String),
        process_anthropic_passthrough token
            { route with upstream_api_key := key1 } body outcome env st
          = process_anthropic_passthrough token
              { route with upstream_api_key := key2 } body outcome env st
        ∧ process_anthropic_to_openai token
            { route with upstream_api_key := key1 } body outcome env st
          = process_anthropic_to_openai token
              { route with upstream_api_key := key2 } body outcome env st
        ∧ process_openai_passthrough token
            { route with upstream_api_key := key1 } body outcome env st
          = process_openai_passthrough token
              { route with upstream_api_key := key2 } body outcome env st
        ∧ process_openai_to_anthropic token
            { route with upstream_api_key := key1 } body outcome env st rm
          = process_openai_to_anthropic token
              { route with upstream_api_key := key2 } body outcome env st rm) := by
  constructor
  · intro headers k v hkv hsens
    have : (k, "***") = (fun (p : String × String) =>
        let lowered := p.1.pyLower
        if lowered = "authorization" ∨ lowered = "x-api-key" ∨
            lowered = "api-key" then (p.1, "***") else (p.1, p.2)) (k, v) := by
      dsimp only
      rw [if_pos hsens]
    rw [this]
    exact List.mem_map_of_mem _ hkv
  · intro token route body outcome env st key1 key2 rm
    refine ⟨rfl, rfl, rfl, rfl⟩

theorem C9_secret_hygiene_witness :
    ("x-api-key", "***") ∈ masked_headers
        [("x-api-key", "sk-test-12345"), ("anthropic-version", "2023-06-01")] :=
  C9_secret_hygiene.1 [("x-api-key", "sk-test-12345"),
    ("anthropic-version", "2023-06-01")] "x-api-key" "sk-test-12345"
    (by decide) (by decide)

theorem C8_sse_synthesis_witness :
    ∃ p, (process_anthropic_to_openai "tok" c8route c8body c8outcome c8env
            {}).1.payload = .js p ∧
      ∀ g c, (sendSseEvents g p c).1 =
        [("message_start", sseStartEnvelope g p c)]
        ++ (sseContentOf p).enum.flatMap (fun q => sseTripleSpec q.1 q.2)
        ++ [("message_delta", sseDeltaEnvelope p),
            ("message_stop", .obj [("type", .str "message_stop")])] :=
  C8_sse_synthesis "tok" c8route c8body c8outcome c8env {} (by decide)

/-! ## C5: request-translation round trip -/

/-- The Anthropic body of a two-text-block user message. -/
def c5body : Json :=
  .obj [("model", .str "m"),
        ("messages", .arr [.obj [("role", .str "user"),
          ("content", .arr [.obj [("type", .str "text"), ("text", .str "a")],
                            .obj [("type", .str "text"), ("text", .str "b")]])]])]

/-- The `messages` list of an Anthropic body. -/
def anthMessagesOf (body : Json) : List Json :=
  match body.getField "messages" with
  | some (.arr l) => l
  | _ => []

/-- The `system` value a round trip should restore: the body's system
string, `none` otherwise. -/
def anthSystemOf (body : Json) : Option Json :=
  match body.getField "system" with
  | some (.str s) => some (.str s)
  | _ => none

/-- Canonical Anthropic text block: exactly `\x7btype, text\x7d` with
non-empty text. -/
def canonTextBlock : Json → Bool
  | .obj [("type", .str "text"), ("text", .str t)] => t ≠ ""
  | _ => false

/-- Canonical Anthropic `tool_use` block: exactly
`\x7btype, id, name, input\x7d`, id and name non-empty and
strip-invariant, input a dict/list whose serialization parses back to
itself. -/
def canonToolUseBlock : Json → Bool
  | .obj [("type", .str "tool_use"), ("id", .str i), ("name", .str n),
          ("input", inp)] =>
      i.pyStrip = i && i ≠ "" && n.pyStrip = n && n ≠ "" && inp.isContainer &&
      safe_json_loads inp.dumps == some inp
  | _ => false

/-- Canonical Anthropic `tool_result` block: exactly
`\x7btype, tool_use_id, content\x7d`, id non-empty and strip-invariant,
content a plain string. -/
def canonToolResultBlock : Json → Bool
  | .obj [("type", .str "tool_result"), ("tool_use_id", .str i),
          ("content", .str _)] =>
      i.pyStrip = i && i ≠ ""
  | _ => false

/-- Canonical assistant content: an optional leading non-empty text
block followed by canonical `tool_use` blocks, at least one block. -/
def canonAssistantBlocks : List Json → Bool
  | [] => false
  | b :: rest =>
      (canonTextBlock b && rest.all canonToolUseBlock) ||
      (canonToolUseBlock b && rest.all canonToolUseBlock)

/-- Canonical Anthropic message: a user message with a single canonical
text or `tool_result` block, or an assistant message with canonical
content. -/
def canonAnthropicMsg : Json → Bool
  | .obj [("role", .str r), ("content", .arr blocks)] =>
      if r = "user" then
        match blocks with
        | [b] => canonTextBlock b || canonToolResultBlock b
        | _ => false
      else if r = "assistant" then canonAssistantBlocks blocks
      else false
  | _ => false

/-- Canonical Anthropic body: `system` absent, `null`, or a non-empty
string; `messages` a list of canonical messages. -/
def canonAnthropicBody (body : Json) : Bool :=
  (match body.getField "system" with
   | none => true
   | some .null => true
   | some (.str s) => s ≠ ""
   | _ => false)
  && (match body.getField "messages" with
      | some (.arr msgs) => msgs.all canonAnthropicMsg
      | _ => false)

/-- Canonical OpenAI `tool_calls` entry: exactly
`\x7bid, type: function, function: \x7bname, arguments\x7d\x7d`, id and
name non-empty and strip-invariant, arguments the canonical serialization
of a dict/list. -/
def canonOpenAIToolCall : Json → Bool
  | .obj [("id", .str i), ("type", .str "function"),
          ("function", .obj [("name", .str n), ("arguments", .str a)])] =>
      i.pyStrip = i && i ≠ "" && n.pyStrip = n && n ≠ "" &&
      (match safe_json_loads a with
       | some j => j.isContainer && j.dumps == a
       | none => false)
  | _ => false

/-- Canonical OpenAI message (non-system): a user message with non-empty
string content, a tool message with strip-invariant non-empty
`tool_call_id` and string content, or an assistant message with string
content, optionally carrying canonical non-empty `tool_calls` (content
may be empty only in that case). -/
def canonOpenAIMsg : Json → Bool
  | .obj [("role", .str "user"), ("content", .str t)] => t ≠ ""
  | .obj [("role", .str "tool"), ("tool_call_id", .str i),
          ("content", .str _)] => i.pyStrip = i && i ≠ ""
  | .obj [("role", .str "assistant"), ("content", .str t)] => t ≠ ""
  | .obj [("role", .str "assistant"), ("content", .str _),
          ("tool_calls", .arr calls)] =>
      !calls.isEmpty && calls.all canonOpenAIToolCall
  | _ => false

/-- Canonical OpenAI message list: an optional leading system message
with non-empty string content, then canonical non-system messages. -/
def canonOpenAIMsgs : List Json → Bool
  | (.obj [("role", .str "system"), ("content", .str s)]) :: rest =>
      s ≠ "" && rest.all canonOpenAIMsg
  | items => items.all canonOpenAIMsg

/-- The Anthropic body rebuilt from `_openai_messages_to_anthropic`
output, as `_process_openai_to_anthropic` uses it (llm_proxy.py:1642-1654
passes system and messages into the upstream Anthropic payload). -/
def bodyFromO2A (res : List Json × Option Json) : Json :=
  .obj ((match res.2 with
         | some s => [("system", s)]
         | none => []) ++
        [("messages", .arr res.1)])

/-- C5 counterexample: the Anthropic body whose single user message has
the two text blocks `"a"` and `"b"` (no ids involved, so no freshness is
drawn) round-trips to a single merged block `"a\nb"`
(llm_proxy.py:241-246 joins the pending text with newlines, 374-376
rebuilds one block); the resulting block list is not a permutation of
the original, so the round trip is not the identity even modulo fresh
ids and block reordering. -/
theorem C5_roundtrip_counterexample :
    (openai_messages_to_anthropic (fun _ => "cccccccccccc")
        (Json.arr (anthropic_messages_to_openai (fun _ => "dddddddddddd")
          c5body 0).1) 0).1
      = ([Json.obj [("role", .str "user"),
           ("content", .arr [.obj [("type", .str "text"),
                                   ("text", .str "a\nb")]])]], none)
    ∧ anthMessagesOf c5body
      = [Json.obj [("role", .str "user"),
          ("content", .arr [.obj [("type", .str "text"), ("text", .str "a")],
                            .obj [("type", .str "text"), ("text", .str "b")]])]]
    ∧ ¬ List.Perm
        [Json.obj [("type", .str "text"), ("text", .str "a\nb")]]
        [Json.obj [("type", .str "text"), ("text", .str "a")],
         Json.obj [("type", .str "text"), ("text", .str "b")]] :=
  ⟨by decide, by decide, by decide⟩

/-- A canonical `tool_use` block with id `i`, name `n`, input `inp`. -/
def c5ToolBlock (i n : String) (inp : Json) : Json :=
  .obj [("type", .str "tool_use"), ("id", .str i), ("name", .str n),
        ("input", inp)]

/-- The OpenAI `tool_calls` entry a canonical `tool_use` block maps to. -/
def c5Call (i n : String) (inp : Json) : Json :=
  .obj [("id", .str i), ("type", .str "function"),
        ("function", .obj [("name", .str n),
                           ("arguments", .str inp.dumps)])]

theorem c5ToolStep (g : Supply) (i n : String) (inp : Json) (rest : List Json)
    (c : Nat) (hi1 : i.pyStrip = i) (hi2 : i ≠ "") (hn1 : n.pyStrip = n)
    (hn2 : n ≠ "") (hc : inp.isContainer = true) :
    a2oAssistantBlocks g (c5ToolBlock i n inp :: rest) c
      = ((a2oAssistantBlocks g rest c).1,
         c5Call i n inp :: (a2oAssistantBlocks g rest c).2.1,
         (a2oAssistantBlocks g rest c).2.2) := by
  simp only [a2oAssistantBlocks]
  dsimp only [c5ToolBlock]
  rw [show (pyStr ((Json.obj [("type", Json.str "tool_use"), ("id", Json.str i),
        ("name", Json.str n), ("input", inp)]).getD "type"
        (Json.str ""))).pyStrip = "tool_use" from rfl]
  rw [if_neg (by decide), if_neg (by decide)]
  rw [show (pyStr ((Json.obj [("type", Json.str "tool_use"), ("id", Json.str i),
        ("name", Json.str n), ("input", inp)]).getD "name"
        (Json.str ""))).pyStrip = String.pyStrip n from rfl, hn1]
  rw [if_neg hn2]
  rw [show (pyStr ((Json.obj [("type", Json.str "tool_use"), ("id", Json.str i),
        ("name", Json.str n), ("input", inp)]).getD "id"
        (Json.str ""))).pyStrip = String.pyStrip i from rfl, hi1]
  rw [if_neg hi2]
  rw [show (Json.obj [("type", Json.str "tool_use"), ("id", Json.str i),
        ("name", Json.str n), ("input", inp)]).getD "input" (Json.obj [])
        = inp from rfl]
  rw [if_pos hc]
  rfl

theorem c5CallStep (g : Supply) (i n : String) (inp : Json) (rest : List Json)
    (c : Nat) (hi1 : i.pyStrip = i) (hi2 : i ≠ "") (hn1 : n.pyStrip = n)
    (hn2 : n ≠ "") (hc : inp.isContainer = true)
    (hp : safe_json_loads inp.dumps = some inp) :
    o2aToolCalls g (c5Call i n inp :: rest) c
      = (c5ToolBlock i n inp :: (o2aToolCalls g rest c).1,
         (o2aToolCalls g rest c).2) := by
  simp only [o2aToolCalls]
  dsimp only [c5Call]
  rw [show (Json.obj [("id", Json.str i), ("type", Json.str "function"),
        ("function", Json.obj [("name", Json.str n),
          ("arguments", Json.str inp.dumps)])]).getField "function"
        = some (Json.obj [("name", Json.str n),
            ("arguments", Json.str inp.dumps)]) from rfl]
  dsimp only
  rw [show (pyStr ((jsonLookup [("name", Json.str n),
        ("arguments", Json.str inp.dumps)] "name").getD
        (Json.str ""))).pyStrip = String.pyStrip n from rfl, hn1]
  rw [if_neg hn2]
  rw [show (pyStr ((Json.obj [("id", Json.str i), ("type", Json.str "function"),
        ("function", Json.obj [("name", Json.str n),
          ("arguments", Json.str inp.dumps)])]).getD "id"
        (Json.str ""))).pyStrip = String.pyStrip i from rfl, hi1]
  rw [if_neg hi2]
  rw [show (jsonLookup [("name", Json.str n),
        ("arguments", Json.str inp.dumps)] "arguments").getD
        (Json.str "\x7b\x7d") = Json.str inp.dumps from rfl]
  dsimp only
  rw [hp]
  cases inp with
  | obj fs => rfl
  | arr xs => rfl
  | null => simp [Json.isContainer] at hc
  | bool b => simp [Json.isContainer] at hc
  | num x => simp [Json.isContainer] at hc
  | str s => simp [Json.isContainer] at hc

/-- Round trip of a canonical `tool_use` block list through the
assistant-branch tool loops of both translators. -/
theorem c5ToolsRoundtrip (g g2 : Supply) (ts : List Json)
    (h : ∀ b ∈ ts, canonToolUseBlock b = true) :
    ∀ c, ∃ calls, a2oAssistantBlocks g ts c = ([], calls, c)
      ∧ (calls.isEmpty ↔ ts.isEmpty)
      ∧ ∀ c2, o2aToolCalls g2 calls c2 = (ts, c2) := by
  induction ts with
  | nil =>
      intro c
      exact ⟨[], rfl, by simp, fun c2 => rfl⟩
  | cons b rest ih =>
      intro c
      have hb := h b (List.mem_cons_self b rest)
      obtain ⟨calls, h1, h2, h3⟩ :=
        ih (fun x hx => h x (List.mem_cons_of_mem b hx)) c
      unfold canonToolUseBlock at hb
      repeat' split at hb
      all_goals try exact absurd hb (by decide)
      rename_i x0 i n inp
      simp only [Bool.and_eq_true, decide_eq_true_eq, beq_iff_eq] at hb
      obtain ⟨⟨⟨⟨⟨hi1, hi2⟩, hn1⟩, hn2⟩, hc⟩, hp⟩ := hb
      refine ⟨c5Call i n inp :: calls, ?_, ?_, ?_⟩
      · rw [show (Json.obj [("type", Json.str "tool_use"), ("id", Json.str i),
              ("name", Json.str n), ("input", inp)]) = c5ToolBlock i n inp
              from rfl,
            c5ToolStep g i n inp rest c hi1 hi2 hn1 hn2 hc, h1]
      · simp
      · intro c2
        rw [c5CallStep g2 i n inp calls c2 hi1 hi2 hn1 hn2 hc hp, h3 c2]
        rfl

/-- Canonical single-text-block Anthropic user message. -/
def aUserText (t : String) : Json :=
  .obj [("role", .str "user"),
        ("content", .arr [.obj [("type", .str "text"), ("text", .str t)]])]

/-- Canonical single-`tool_result` Anthropic user message. -/
def aToolResult (i s : String) : Json :=
  .obj [("role", .str "user"),
        ("content", .arr [.obj [("type", .str "tool_result"),
                                ("tool_use_id", .str i),
                                ("content", .str s)]])]

/-- Anthropic assistant message over content blocks. -/
def aAssistant (blocks : List Json) : Json :=
  .obj [("role", .str "assistant"), ("content", .arr blocks)]

/-- OpenAI user message with string content. -/
def oUser (t : String) : Json :=
  .obj [("role", .str "user"), ("content", .str t)]

/-- OpenAI tool message. -/
def oTool (i s : String) : Json :=
  .obj [("role", .str "tool"), ("tool_call_id", .str i),
        ("content", .str s)]

theorem a2oMsg_userText (g : Supply) (t : String) (c : Nat) :
    a2oMsg g (aUserText t) c = ([oUser t], c) := rfl

theorem o2aMsg_user (g : Supply) (t : String) (c : Nat) :
    o2aMsg g (oUser t) c
      = if t ≠ "" then (([aUserText t], []), c) else (([], []), c) := rfl

theorem a2oMsg_toolResult (g : Supply) (i s : String) (c : Nat)
    (hi1 : i.pyStrip = i) (hi2 : i ≠ "") :
    a2oMsg g (aToolResult i s) c = ([oTool i s], c) := by
  have e : a2oMsg g (aToolResult i s) c
      = ((if i.pyStrip ≠ "" then
            [.obj [("role", .str "tool"), ("tool_call_id", .str i.pyStrip),
                   ("content", .str s)]]
          else [.obj [("role", .str "user"), ("content", .str s)]]), c) := rfl
  rw [e, hi1, if_pos hi2]
  rfl

theorem o2aMsg_tool (g : Supply) (i s : String) (c : Nat)
    (hi1 : i.pyStrip = i) (hi2 : i ≠ "") :
    o2aMsg g (oTool i s) c = (([aToolResult i s], []), c) := by
  have e : o2aMsg g (oTool i s) c
      = if i.pyStrip = "" then (([], []), c)
        else (([.obj [("role", .str "user"),
                ("content", .arr [.obj [("type", .str "tool_result"),
                                        ("tool_use_id", .str i.pyStrip),
                                        ("content", .str s)]])]], []), c) := rfl
  rw [e, hi1, if_neg hi2]
  rfl

theorem a2oAssistantBlocks_text (g : Supply) (t : String) (rest : List Json)
    (c : Nat) :
    a2oAssistantBlocks g
        (Json.obj [("type", .str "text"), ("text", .str t)] :: rest) c
      = (t :: (a2oAssistantBlocks g rest c).1,
         (a2oAssistantBlocks g rest c).2.1,
         (a2oAssistantBlocks g rest c).2.2) := rfl

/-- The assistant branch of `a2oMsg` as a function of the normalized
block list. -/
def a2oAssistantMsg (g : Supply) (blocks : List Json) (c : Nat) :
    List Json × Nat :=
  let ab := a2oAssistantBlocks g blocks c
  let text_parts := ab.1
  let tool_calls := ab.2.1
  let content :=
    if text_parts.isEmpty then "" else String.intercalate "\n" text_parts
  let base := [("role", Json.str "assistant"), ("content", Json.str content)]
  let msg : Json :=
    if tool_calls.isEmpty then .obj base
    else .obj (base ++ [("tool_calls", Json.arr tool_calls)])
  if content ≠ "" ∨ ¬ tool_calls.isEmpty then ([msg], ab.2.2) else ([], ab.2.2)

theorem a2oMsg_assistant (g : Supply) (blocks : List Json) (c : Nat)
    (hobj : ∀ b ∈ blocks, b.isObj = true) :
    a2oMsg g (aAssistant blocks) c = a2oAssistantMsg g blocks c := by
  have e : a2oMsg g (aAssistant blocks) c
      = a2oAssistantMsg g (blocks.filter Json.isObj) c := rfl
  rw [e, List.filter_eq_self.mpr hobj]

theorem o2aMsg_assistantText (g : Supply) (t : String) (ht : t ≠ "") (c : Nat) :
    o2aMsg g (.obj [("role", .str "assistant"), ("content", .str t)]) c
      = (([aAssistant [.obj [("type", .str "text"), ("text", .str t)]]], []),
         c) := by
  have e : o2aMsg g (.obj [("role", .str "assistant"),
        ("content", .str t)]) c
      = (if ((if t ≠ "" then
                [Json.obj [("type", .str "text"), ("text", .str t)]]
              else []) ++ ([] : List Json)).isEmpty
         then ((([], []), c) : (List Json × List String) × Nat)
         else (([aAssistant ((if t ≠ "" then
                  [Json.obj [("type", .str "text"), ("text", .str t)]]
                else []) ++ [])], []), c)) := rfl
  rw [e, if_pos ht]
  rfl

theorem o2aMsg_assistantCalls (g : Supply) (t : String) (calls : List Json)
    (c : Nat) :
    o2aMsg g (.obj [("role", .str "assistant"), ("content", .str t),
        ("tool_calls", .arr calls)]) c
      = (let textBlocks : List Json :=
           if t ≠ "" then [.obj [("type", .str "text"), ("text", .str t)]]
           else []
         let tb := o2aToolCalls g calls c
         let content_blocks := textBlocks ++ tb.1
         if content_blocks.isEmpty then (([], []), tb.2)
         else (([aAssistant content_blocks], []), tb.2)) := rfl

theorem o2aGo_single (g : Supply) (x : Json) (c : Nat) :
    o2aGo g [x] c
      = (((o2aMsg g x c).1.1, (o2aMsg g x c).1.2), (o2aMsg g x c).2) := by
  show ((((o2aMsg g x c).1.1 ++ [], (o2aMsg g x c).1.2 ++ []),
         (o2aMsg g x c).2) : (List Json × List String) × Nat) = _
  simp

theorem canonToolUseBlock_isObj (b : Json) (h : canonToolUseBlock b = true) :
    b.isObj = true := by
  unfold canonToolUseBlock at h
  repeat' split at h
  all_goals try exact absurd h (by decide)
  rfl

theorem canonTextBlock_elim (b : Json) (h : canonTextBlock b = true) :
    ∃ t, b = .obj [("type", .str "text"), ("text", .str t)] ∧ t ≠ "" := by
  unfold canonTextBlock at h
  repeat' split at h
  all_goals try exact absurd h (by decide)
  rename_i t
  exact ⟨t, rfl, by simpa using h⟩

theorem canonToolResultBlock_elim (b : Json)
    (h : canonToolResultBlock b = true) :
    ∃ i s, b = .obj [("type", .str "tool_result"), ("tool_use_id", .str i),
        ("content", .str s)] ∧ i.pyStrip = i ∧ i ≠ "" := by
  unfold canonToolResultBlock at h
  repeat' split at h
  all_goals try exact absurd h (by decide)
  rename_i i s
  simp only [Bool.and_eq_true, decide_eq_true_eq] at h
  exact ⟨i, s, rfl, h.1, h.2⟩

theorem a2oAssistantMsg_eval (g : Supply) (blocks : List Json) (c : Nat)
    (texts : List String) (calls : List Json) (c2 : Nat)
    (hab : a2oAssistantBlocks g blocks c = (texts, calls, c2)) :
    a2oAssistantMsg g blocks c
      = (let content :=
           if texts.isEmpty then "" else String.intercalate "\n" texts
         let msg : Json :=
           if calls.isEmpty then
             .obj [("role", Json.str "assistant"),
                   ("content", Json.str content)]
           else
             .obj [("role", Json.str "assistant"),
                   ("content", Json.str content),
                   ("tool_calls", Json.arr calls)]
         if content ≠ "" ∨ ¬ calls.isEmpty then ([msg], c2) else ([], c2)) := by
  unfold a2oAssistantMsg
  rw [hab]
  rfl

theorem c5MsgA_assistant (g g2 : Supply) (blocks : List Json)
    (hm : canonAssistantBlocks blocks = true) (c : Nat) :
    ∃ omsgs, a2oMsg g (aAssistant blocks) c = (omsgs, c)
      ∧ ∀ c2, o2aGo g2 omsgs c2 = (([aAssistant blocks], []), c2) := by
  unfold canonAssistantBlocks at hm
  split at hm
  · exact absurd hm (by decide)
  rename_i b rest
  rw [Bool.or_eq_true, Bool.and_eq_true, Bool.and_eq_true] at hm
  rcases hm with ⟨hbt, hrest⟩ | ⟨hbt, hrest⟩
  · obtain ⟨t, rfl, ht⟩ := canonTextBlock_elim b hbt
    have htools : ∀ x ∈ rest, canonToolUseBlock x = true := by
      intro x hx; exact List.all_eq_true.mp hrest x hx
    obtain ⟨calls, h1, h2, h3⟩ := c5ToolsRoundtrip g g2 rest htools c
    have hobj : ∀ x ∈ (Json.obj [("type", .str "text"),
        ("text", .str t)]) :: rest, x.isObj = true := by
      intro x hx
      rcases List.mem_cons.mp hx with rfl | hx
      · rfl
      · exact canonToolUseBlock_isObj x (htools x hx)
    rw [a2oMsg_assistant g _ c hobj,
        a2oAssistantMsg_eval g _ c [t] calls c
          (by rw [a2oAssistantBlocks_text, h1])]
    dsimp only
    rw [show (if ([t] : List String).isEmpty then ""
          else String.intercalate "\n" [t]) = t from rfl]
    rw [if_pos (Or.inl ht)]
    by_cases hce : calls.isEmpty = true
    · obtain rfl : calls = [] := List.isEmpty_iff.mp hce
      obtain rfl : rest = [] := List.isEmpty_iff.mp (h2.mp rfl)
      rw [if_pos (show (List.isEmpty ([] : List Json)) = true from rfl)]
      refine ⟨_, rfl, ?_⟩
      intro c2
      rw [o2aGo_single, o2aMsg_assistantText g2 t ht c2]
    · rw [if_neg hce]
      refine ⟨_, rfl, ?_⟩
      intro c2
      rw [o2aGo_single, o2aMsg_assistantCalls]
      dsimp only
      rw [if_pos ht, h3 c2]
      rfl
  · have htools : ∀ x ∈ b :: rest, canonToolUseBlock x = true := by
      intro x hx
      rcases List.mem_cons.mp hx with rfl | hx
      · exact hbt
      · exact List.all_eq_true.mp hrest x hx
    obtain ⟨calls, h1, h2, h3⟩ := c5ToolsRoundtrip g g2 (b :: rest) htools c
    have hobj : ∀ x ∈ b :: rest, x.isObj = true :=
      fun x hx => canonToolUseBlock_isObj x (htools x hx)
    have hce : ¬ calls.isEmpty = true := by
      intro hx
      have := h2.mp hx
      simp at this
    rw [a2oMsg_assistant g _ c hobj, a2oAssistantMsg_eval g _ c [] calls c h1]
    dsimp only
    rw [show (if ([] : List String).isEmpty then ""
          else String.intercalate "\n" []) = "" from rfl]
    rw [if_neg hce, if_pos (Or.inr hce)]
    refine ⟨_, rfl, ?_⟩
    intro c2
    rw [o2aGo_single, o2aMsg_assistantCalls]
    dsimp only
    rw [h3 c2]
    rfl

theorem o2aMsg_system (g : Supply) (s : String) (hs : s ≠ "") (c : Nat) :
    o2aMsg g (.obj [("role", .str "system"), ("content", .str s)]) c
      = (([], [s]), c) := by
  have e : o2aMsg g (.obj [("role", .str "system"), ("content", .str s)]) c
      = if s ≠ "" then (([], [s]), c) else (([], []), c) := rfl
  rw [e, if_pos hs]

theorem o2aGo_append (g : Supply) (xs ys : List Json) :
    ∀ c, o2aGo g (xs ++ ys) c
      = (((o2aGo g xs c).1.1 ++ (o2aGo g ys (o2aGo g xs c).2).1.1,
          (o2aGo g xs c).1.2 ++ (o2aGo g ys (o2aGo g xs c).2).1.2),
         (o2aGo g ys (o2aGo g xs c).2).2) := by
  induction xs with
  | nil => intro c; simp [o2aGo]
  | cons x xs ih =>
      intro c
      show o2aGo g (x :: (xs ++ ys)) c = _
      simp only [o2aGo]
      rw [ih]
      dsimp only
      simp [List.append_assoc]

theorem c5MsgA (g g2 : Supply) (m : Json) (hm : canonAnthropicMsg m = true)
    (c : Nat) :
    ∃ omsgs, a2oMsg g m c = (omsgs, c)
      ∧ ∀ c2, o2aGo g2 omsgs c2 = (([m], []), c2) := by
  unfold canonAnthropicMsg at hm
  split at hm
  case _ r blocks =>
    by_cases hr : r = "user"
    · subst hr
      rw [if_pos rfl] at hm
      split at hm
      case _ b =>
        rw [Bool.or_eq_true] at hm
        rcases hm with hb | hb
        · obtain ⟨t, rfl, ht⟩ := canonTextBlock_elim b hb
          refine ⟨[oUser t], a2oMsg_userText g t c, ?_⟩
          intro c2
          rw [o2aGo_single, o2aMsg_user, if_pos ht]
          rfl
        · obtain ⟨i, s, rfl, hi1, hi2⟩ := canonToolResultBlock_elim b hb
          refine ⟨[oTool i s], a2oMsg_toolResult g i s c hi1 hi2, ?_⟩
          intro c2
          rw [o2aGo_single, o2aMsg_tool g2 i s c2 hi1 hi2]
          rfl
      all_goals exact absurd hm (by decide)
    · rw [if_neg hr] at hm
      by_cases hr2 : r = "assistant"
      · subst hr2
        rw [if_pos rfl] at hm
        exact c5MsgA_assistant g g2 blocks hm c
      · rw [if_neg hr2] at hm
        exact absurd hm (by decide)
  all_goals exact absurd hm (by decide)

/-- Round trip of a canonical Anthropic message list through the two
message loops. -/
theorem c5GoA (g g2 : Supply) (msgs : List Json)
    (h : ∀ m ∈ msgs, canonAnthropicMsg m = true) :
    ∀ c, (a2oGo g msgs c).2 = c ∧
      ∀ c2, o2aGo g2 (a2oGo g msgs c).1 c2 = ((msgs, []), c2) := by
  induction msgs with
  | nil => intro c; exact ⟨rfl, fun c2 => rfl⟩
  | cons m rest ih =>
      intro c
      obtain ⟨omsgs, h1, h2⟩ := c5MsgA g g2 m (h m (List.mem_cons_self m rest)) c
      obtain ⟨ih1, ih2⟩ := ih (fun x hx => h x (List.mem_cons_of_mem m hx)) c
      constructor
      · show (a2oGo g rest (a2oMsg g m c).2).2 = c
        rw [h1]
        exact ih1
      · intro c2
        show o2aGo g2 ((a2oMsg g m c).1
              ++ (a2oGo g rest (a2oMsg g m c).2).1) c2 = _
        rw [h1]
        dsimp only
        rw [o2aGo_append, h2 c2]
        dsimp only
        rw [ih2 c2]
        simp

/-- Round trip of a canonical Anthropic body:
`O2A(A2O(body)) = (body.messages, body.system)` exactly. -/
theorem c5BodyA (g g2 : Supply) (c c2 : Nat) (body : Json)
    (h : canonAnthropicBody body = true) :
    (openai_messages_to_anthropic g2
        (Json.arr (anthropic_messages_to_openai g body c).1) c2).1
      = (anthMessagesOf body, anthSystemOf body) := by
  unfold canonAnthropicBody at h
  rw [Bool.and_eq_true] at h
  obtain ⟨hsys, hmsgs⟩ := h
  split at hmsgs
  case _ msgs hf =>
    have hmAll : ∀ m ∈ msgs, canonAnthropicMsg m = true := fun m hm =>
      List.all_eq_true.mp hmsgs m hm
    have hgetD : body.getD "messages" (.arr []) = .arr msgs := by
      unfold Json.getD
      rw [hf]
      rfl
    have hMsgsOf : anthMessagesOf body = msgs := by
      unfold anthMessagesOf
      rw [hf]
    obtain ⟨hctr, hrt⟩ := c5GoA g g2 msgs hmAll c
    split at hsys
    case _ hfs =>
      have hsys0 : body.getD "system" .null = .null := by
        unfold Json.getD
        rw [hfs]
        rfl
      have hSysOf : anthSystemOf body = none := by
        unfold anthSystemOf
        rw [hfs]
      have hA : (anthropic_messages_to_openai g body c).1
          = (a2oGo g msgs c).1 := by
        unfold anthropic_messages_to_openai
        rw [hsys0, hgetD]
        rfl
      rw [hA]
      unfold openai_messages_to_anthropic
      dsimp only
      rw [hrt c2, hMsgsOf, hSysOf]
    case _ hfs =>
      have hsys0 : body.getD "system" .null = .null := by
        unfold Json.getD
        rw [hfs]
        rfl
      have hSysOf : anthSystemOf body = none := by
        unfold anthSystemOf
        rw [hfs]
      have hA : (anthropic_messages_to_openai g body c).1
          = (a2oGo g msgs c).1 := by
        unfold anthropic_messages_to_openai
        rw [hsys0, hgetD]
        rfl
      rw [hA]
      unfold openai_messages_to_anthropic
      dsimp only
      rw [hrt c2, hMsgsOf, hSysOf]
    case _ s hfs =>
      have hsne : s ≠ "" := by simpa using hsys
      have hsys0 : body.getD "system" .null = .str s := by
        unfold Json.getD
        rw [hfs]
        rfl
      have hSysOf : anthSystemOf body = some (.str s) := by
        unfold anthSystemOf
        rw [hfs]
      have hpt : pyTruthy (.str s) = true := by
        simp [pyTruthy, hsne]
      have hA : (anthropic_messages_to_openai g body c).1
          = (Json.obj [("role", Json.str "system"), ("content", Json.str s)])
              :: (a2oGo g msgs c).1 := by
        unfold anthropic_messages_to_openai
        rw [hsys0, hgetD]
        dsimp only
        rw [if_pos hpt,
            if_pos (show extract_text_content (.str s) ≠ "" from hsne)]
        rfl
      rw [hA]
      unfold openai_messages_to_anthropic
      dsimp only
      simp only [o2aGo]
      rw [o2aMsg_system g2 s hsne c2]
      dsimp only
      rw [hrt c2, hMsgsOf, hSysOf]
      simp
    case _ => exact absurd hsys (by decide)
  case _ => exact absurd hmsgs (by decide)

theorem a2oGo_single (g : Supply) (x : Json) (c : Nat) :
    a2oGo g [x] c = ((a2oMsg g x c).1, (a2oMsg g x c).2) := by
  show (((a2oMsg g x c).1 ++ [], (a2oMsg g x c).2) : List Json × Nat) = _
  simp

theorem a2oGo_append (g : Supply) (xs ys : List Json) :
    ∀ c, a2oGo g (xs ++ ys) c
      = ((a2oGo g xs c).1 ++ (a2oGo g ys (a2oGo g xs c).2).1,
         (a2oGo g ys (a2oGo g xs c).2).2) := by
  induction xs with
  | nil => intro c; simp [a2oGo]
  | cons x xs ih =>
      intro c
      show a2oGo g (x :: (xs ++ ys)) c = _
      simp only [a2oGo]
      rw [ih]
      dsimp only
      simp [List.append_assoc]

/-- Round trip of a canonical OpenAI `tool_calls` list through the tool
loops of both translators. -/
theorem c5CallsRoundtrip (g g2 : Supply) (calls : List Json)
    (h : ∀ x ∈ calls, canonOpenAIToolCall x = true) :
    ∀ c, ∃ ts, o2aToolCalls g calls c = (ts, c)
      ∧ (ts.isEmpty ↔ calls.isEmpty)
      ∧ (∀ b ∈ ts, canonToolUseBlock b = true)
      ∧ ∀ c2, a2oAssistantBlocks g2 ts c2 = ([], calls, c2) := by
  induction calls with
  | nil =>
      intro c
      exact ⟨[], rfl, by simp, by simp, fun c2 => rfl⟩
  | cons x rest ih =>
      intro c
      have hx := h x (List.mem_cons_self x rest)
      obtain ⟨ts, h1, h2, h4, h3⟩ :=
        ih (fun y hy => h y (List.mem_cons_of_mem x hy)) c
      unfold canonOpenAIToolCall at hx
      repeat' split at hx
      all_goals try exact absurd hx (by decide)
      all_goals simp only [Bool.and_eq_true, Bool.false_eq_true, and_false,
        decide_eq_true_eq, beq_iff_eq] at hx
      rename_i x0 i n a x1 j hload
      obtain ⟨⟨⟨⟨hi1, hi2⟩, hn1⟩, hn2⟩, hc, hdump⟩ := hx
      subst hdump
      refine ⟨c5ToolBlock i n j :: ts, ?_, ?_, ?_, ?_⟩
      · rw [show (Json.obj [("id", Json.str i), ("type", Json.str "function"),
              ("function", Json.obj [("name", Json.str n),
                ("arguments", Json.str j.dumps)])]) = c5Call i n j from rfl,
            c5CallStep g i n j rest c hi1 hi2 hn1 hn2 hc hload, h1]
      · simp
      · intro b hb
        rcases List.mem_cons.mp hb with rfl | hb
        · rw [show canonToolUseBlock (c5ToolBlock i n j)
                = (decide (i.pyStrip = i) && decide (i ≠ "") &&
                   decide (n.pyStrip = n) && decide (n ≠ "") &&
                   j.isContainer &&
                   (safe_json_loads j.dumps == some j)) from rfl]
          simp [hi1, hi2, hn1, hn2, hc, hload]
        · exact h4 b hb
      · intro c2
        rw [c5ToolStep g2 i n j ts c2 hi1 hi2 hn1 hn2 hc, h3 c2]
        rfl

theorem c5MsgO (g g2 : Supply) (m : Json) (hm : canonOpenAIMsg m = true)
    (c : Nat) :
    ∃ amsgs, o2aMsg g m c = ((amsgs, []), c)
      ∧ ∀ c2, a2oGo g2 amsgs c2 = ([m], c2) := by
  unfold canonOpenAIMsg at hm
  repeat' split at hm
  all_goals try exact absurd hm (by decide)
  case _ t =>
    have ht : t ≠ "" := by simpa using hm
    refine ⟨[aUserText t], ?_, ?_⟩
    · rw [show (Json.obj [("role", Json.str "user"), ("content", Json.str t)])
            = oUser t from rfl, o2aMsg_user, if_pos ht]
    · intro c2
      rw [a2oGo_single, a2oMsg_userText]
      rfl
  case _ i s =>
    simp only [Bool.and_eq_true, decide_eq_true_eq] at hm
    obtain ⟨hi1, hi2⟩ := hm
    refine ⟨[aToolResult i s], ?_, ?_⟩
    · rw [show (Json.obj [("role", Json.str "tool"),
            ("tool_call_id", Json.str i), ("content", Json.str s)])
            = oTool i s from rfl, o2aMsg_tool g i s c hi1 hi2]
    · intro c2
      rw [a2oGo_single, a2oMsg_toolResult g2 i s c2 hi1 hi2]
      rfl
  case _ t =>
    have ht : t ≠ "" := by simpa using hm
    refine ⟨[aAssistant [.obj [("type", .str "text"), ("text", .str t)]]],
      ?_, ?_⟩
    · rw [o2aMsg_assistantText g t ht c]
    · intro c2
      have hobj : ∀ x ∈ [Json.obj [("type", Json.str "text"),
          ("text", Json.str t)]], x.isObj = true := by
        intro x hx
        rcases List.mem_singleton.mp hx with rfl
        rfl
      rw [a2oGo_single, a2oMsg_assistant g2 _ c2 hobj,
          a2oAssistantMsg_eval g2 [Json.obj [("type", Json.str "text"),
            ("text", Json.str t)]] c2 [t] [] c2 rfl]
      dsimp only
      rw [show (if ([t] : List String).isEmpty then ""
            else String.intercalate "\n" [t]) = t from rfl]
      rw [if_pos (show (List.isEmpty ([] : List Json)) = true from rfl)]
      rw [if_pos (Or.inl ht)]
  case _ t calls =>
    simp only [Bool.and_eq_true, Bool.not_eq_true'] at hm
    obtain ⟨hne, hall⟩ := hm
    have hcalls : ∀ x ∈ calls, canonOpenAIToolCall x = true := fun x hx =>
      List.all_eq_true.mp hall x hx
    obtain ⟨ts, h1, h2, h4, h3⟩ := c5CallsRoundtrip g g2 calls hcalls c
    have hts : ¬ ts.isEmpty = true := by
      intro hx
      rw [h2.mp hx] at hne
      exact absurd hne (by simp)
    have hcne : ¬ calls.isEmpty = true := by simp [hne]
    have htsobj : ∀ x ∈ ts, x.isObj = true := fun x hx =>
      canonToolUseBlock_isObj x (h4 x hx)
    by_cases ht : t = ""
    · subst ht
      refine ⟨[aAssistant ts], ?_, ?_⟩
      · rw [o2aMsg_assistantCalls]
        dsimp only
        rw [h1]
        dsimp only
        rw [if_neg (show ¬(("" : String) ≠ "") from by decide)]
        simp only [List.nil_append]
        rw [if_neg hts]
      · intro c2
        rw [a2oGo_single, a2oMsg_assistant g2 ts c2 htsobj,
            a2oAssistantMsg_eval g2 ts c2 [] calls c2 (h3 c2)]
        dsimp only
        rw [show (if ([] : List String).isEmpty then ""
              else String.intercalate "
" []) = "" from rfl]
        rw [if_neg hcne, if_pos (Or.inr hcne)]
    · refine ⟨[aAssistant (Json.obj [("type", .str "text"),
        ("text", .str t)] :: ts)], ?_, ?_⟩
      · rw [o2aMsg_assistantCalls]
        dsimp only
        rw [h1]
        dsimp only
        rw [if_pos (show (t ≠ "") from ht)]
        rw [if_neg (by simp)]
        rfl
      · intro c2
        have hobj2 : ∀ x ∈ (Json.obj [("type", .str "text"),
            ("text", .str t)] :: ts), x.isObj = true := by
          intro x hx
          rcases List.mem_cons.mp hx with rfl | hx
          · rfl
          · exact htsobj x hx
        rw [a2oGo_single, a2oMsg_assistant g2 _ c2 hobj2,
            a2oAssistantMsg_eval g2 _ c2 [t] calls c2
              (by rw [a2oAssistantBlocks_text, h3 c2])]
        dsimp only
        rw [show (if ([t] : List String).isEmpty then ""
              else String.intercalate "
" [t]) = t from rfl]
        rw [if_neg hcne, if_pos (Or.inl ht)]
  all_goals exact absurd hm (by decide)

/-- Round trip of a canonical non-system OpenAI message list through the
two message loops. -/
theorem c5GoO (g g2 : Supply) (items : List Json)
    (h : ∀ m ∈ items, canonOpenAIMsg m = true) :
    ∀ c, ∃ amsgs, o2aGo g items c = ((amsgs, []), c)
      ∧ ∀ c2, a2oGo g2 amsgs c2 = (items, c2) := by
  induction items with
  | nil => intro c; exact ⟨[], rfl, fun c2 => rfl⟩
  | cons m rest ih =>
      intro c
      obtain ⟨am, h1, h2⟩ := c5MsgO g g2 m (h m (List.mem_cons_self m rest)) c
      obtain ⟨amr, ih1, ih2⟩ :=
        ih (fun x hx => h x (List.mem_cons_of_mem m hx)) c
      refine ⟨am ++ amr, ?_, ?_⟩
      · show ((((o2aMsg g m c).1.1
            ++ (o2aGo g rest (o2aMsg g m c).2).1.1,
            (o2aMsg g m c).1.2 ++ (o2aGo g rest (o2aMsg g m c).2).1.2),
            (o2aGo g rest (o2aMsg g m c).2).2) :
              (List Json × List String) × Nat) = _
        rw [h1]
        dsimp only
        rw [ih1]
        rfl
      · intro c2
        rw [a2oGo_append, h2 c2]
        dsimp only
        rw [ih2 c2]
        simp

/-- Round trip of a canonical OpenAI message list with no system
message. -/
theorem c5ItemsO_noSys (g g2 : Supply) (c c2 : Nat) (items : List Json)
    (h : ∀ m ∈ items, canonOpenAIMsg m = true) :
    (anthropic_messages_to_openai g2
        (bodyFromO2A (openai_messages_to_anthropic g (.arr items) c).1) c2).1
      = items := by
  obtain ⟨amsgs, h1, h2⟩ := c5GoO g g2 items h c
  have hO : (openai_messages_to_anthropic g (.arr items) c).1
      = (amsgs, none) := by
    unfold openai_messages_to_anthropic
    dsimp only
    rw [h1]
  rw [hO]
  unfold bodyFromO2A
  dsimp only
  unfold anthropic_messages_to_openai
  simp only [List.nil_append]
  rw [show (Json.obj [("messages", Json.arr amsgs)]).getD "system" .null
        = Json.null from rfl,
      show (Json.obj [("messages", Json.arr amsgs)]).getD "messages"
        (.arr []) = Json.arr amsgs from rfl]
  dsimp only
  rw [h2 c2]
  rfl

/-- Round trip of a canonical OpenAI message list (optional leading
system message): `A2O` of the body rebuilt from `O2A` output restores
the original list exactly. -/
theorem c5ItemsO (g g2 : Supply) (c c2 : Nat) (items : List Json)
    (h : canonOpenAIMsgs items = true) :
    (anthropic_messages_to_openai g2
        (bodyFromO2A (openai_messages_to_anthropic g (.arr items) c).1) c2).1
      = items := by
  unfold canonOpenAIMsgs at h
  split at h
  case _ s rest =>
    rw [Bool.and_eq_true, decide_eq_true_eq] at h
    obtain ⟨hs, hall⟩ := h
    have hrest : ∀ m ∈ rest, canonOpenAIMsg m = true := fun m hm =>
      List.all_eq_true.mp hall m hm
    obtain ⟨amsgs, h1, h2⟩ := c5GoO g g2 rest hrest c
    have hO : (openai_messages_to_anthropic g
        (.arr (Json.obj [("role", .str "system"), ("content", .str s)]
          :: rest)) c).1
        = (amsgs, some (.str s)) := by
      unfold openai_messages_to_anthropic
      dsimp only
      simp only [o2aGo]
      rw [o2aMsg_system g s hs c]
      dsimp only
      rw [h1]
      rfl
    rw [hO]
    unfold bodyFromO2A
    dsimp only
    unfold anthropic_messages_to_openai
    simp only [List.cons_append, List.nil_append]
    rw [show (Json.obj [("system", Json.str s),
          ("messages", Json.arr amsgs)]).getD "system" .null
          = Json.str s from rfl,
        show (Json.obj [("system", Json.str s),
          ("messages", Json.arr amsgs)]).getD "messages" (.arr [])
          = Json.arr amsgs from rfl]
    dsimp only
    rw [if_pos (show pyTruthy (.str s) = true by simp [pyTruthy, hs]),
        if_pos (show extract_text_content (.str s) ≠ "" from hs)]
    rw [h2 c2]
    rfl
  case _ hni =>
    exact c5ItemsO_noSys g g2 c c2 _ (fun m hm => List.all_eq_true.mp h m hm)


/-- C5 (amended): the round trip is NOT the identity modulo fresh ids and
block reordering on the full supported subset (adjacent text blocks are
merged, multi-block user messages are split, `is_error` is folded into
text, unnamed tools and empty messages are dropped); it IS exactly the
identity — no id freshness or reordering needed — on the canonical
subsets: Anthropic bodies whose user messages hold a single canonical
text or `tool_result` block and whose assistant messages hold an optional
leading text block plus canonical `tool_use` blocks (ids/names non-empty
and strip-invariant, inputs serialization-stable containers), with
`system` a non-empty string or absent; and OpenAI lists of canonical
user/tool/assistant messages with an optional leading system message. -/
theorem C5_roundtrip_amended :
    (∀ (g g2 : Supply) (c c2 : Nat) (body : Json),
        canonAnthropicBody body = true →
        (openai_messages_to_anthropic g2
            (Json.arr (anthropic_messages_to_openai g body c).1) c2).1
          = (anthMessagesOf body, anthSystemOf body))
    ∧ (∀ (g g2 : Supply) (c c2 : Nat) (items : List Json),
        canonOpenAIMsgs items = true →
        (anthropic_messages_to_openai g2
            (bodyFromO2A (openai_messages_to_anthropic g
              (.arr items) c).1) c2).1
          = items) :=
  ⟨fun g g2 c c2 body h => c5BodyA g g2 c c2 body h,
   fun g g2 c c2 items h => c5ItemsO g g2 c c2 items h⟩

/-- A concrete canonical Anthropic body exercising system, text,
`tool_use` and `tool_result` messages. -/
def c5canonBody : Json :=
  .obj [("system", .str "sys"),
        ("messages", .arr
          [aUserText "hello",
           aAssistant [.obj [("type", .str "text"), ("text", .str "hi")],
                       c5ToolBlock "toolu_1" "run"
                         (.obj [("cmd", .str "ls")])],
           aToolResult "toolu_1" "ok",
           aAssistant [c5ToolBlock "toolu_2" "run" (.arr [.num 1])]])]

/-- A concrete canonical OpenAI message list. -/
def c5canonItems : List Json :=
  [.obj [("role", .str "system"), ("content", .str "sys")],
   oUser "hello",
   .obj [("role", .str "assistant"), ("content", .str "hi"),
         ("tool_calls", .arr [c5Call "call_1" "run"
           (.obj [("cmd", .str "ls")])])],
   oTool "call_1" "ok",
   .obj [("role", .str "assistant"), ("content", .str "done")]]

theorem C5_roundtrip_amended_witness :
    ((openai_messages_to_anthropic (fun _ => "eeeeeeeeeeee")
        (Json.arr (anthropic_messages_to_openai (fun _ => "ffffffffffff")
          c5canonBody 0).1) 0).1
      = (anthMessagesOf c5canonBody, anthSystemOf c5canonBody))
    ∧ ((anthropic_messages_to_openai (fun _ => "ffffffffffff")
        (bodyFromO2A (openai_messages_to_anthropic (fun _ => "eeeeeeeeeeee")
          (.arr c5canonItems) 0).1) 0).1 = c5canonItems) :=
  ⟨C5_roundtrip_amended.1 (fun _ => "ffffffffffff") (fun _ => "eeeeeeeeeeee")
     0 0 c5canonBody (by decide),
   C5_roundtrip_amended.2 (fun _ => "eeeeeeeeeeee") (fun _ => "ffffffffffff")
     0 0 c5canonItems (by decide)⟩

end A2S
